import Mathlib

/-!
# Verification of the nyc-rent-map heat-point generators

Shallow embedding of the statistical pipeline implemented by
`src/generators/generate_baseline_v2.py` and
`src/generators/generate_s8_nhood_aniso.py`.

Modelling conventions:

* Python floats are modelled as exact rationals (`ℚ`); every IEEE float value
  is a rational number, and all constants appearing in the sources
  (0.003, 0.015, 1.50, ...) are written as the exact decimal literals of the
  source text.
* `round(x)` in Python rounds half to even; it is embedded as `pyRound`.
  `round(x, n)` is `roundTo x n`, `int(x)` (truncation toward zero) is `pyInt`.
* Guards of the form `sqrt(s) < r` (with `s, r ≥ 0`) are embedded as the
  equivalent `s < r^2`, and `sqrt(s) > 0` as `s > 0`, so the neighbourhood
  predicates of the smoother and clamper are exact rational tests, as in the
  source (`math.sqrt` only ever feeds these comparisons and the smoothing
  weight).
* The smoothing weight (`1/dist` in the baseline, `(1/dist)*exp(...)` in the
  anisotropic variant) is kept as a parameter `w` of the smoothing pass:
  every float the running program produces for it is some rational number,
  and every theorem below holds for an arbitrary (positive, where needed)
  rational-valued weight function, hence in particular for those values.
* Python dicts preserve insertion order; grouping by a key is embedded as
  the list of first-occurrence keys (`dedupFirst`) together with a filter
  per key, which yields exactly the iteration order of `dict.items()`.
* Missing dictionary entries are `Option.none`; `l.get(k, d)` is `getD`.
-/

/-- Python `round` on rationals: round half to even (banker's rounding).
The guards compare the fractional part `q - ⌊q⌋` with `1/2`, written
multiplied out (`2q ≶ 2⌊q⌋ + 1`). -/
def pyRound (q : ℚ) : ℤ :=
  if 2 * q < 2 * (⌊q⌋ : ℚ) + 1 then ⌊q⌋
  else if 2 * (⌊q⌋ : ℚ) + 1 < 2 * q then ⌊q⌋ + 1
  else if ⌊q⌋ % 2 = 0 then ⌊q⌋ else ⌊q⌋ + 1

/-- Python `int()` on a number: truncation toward zero. -/
def pyInt (q : ℚ) : ℤ := if 0 ≤ q then ⌊q⌋ else -⌊-q⌋

/-- Python `round(x, n)`: round to `n` decimal digits. -/
def roundTo (q : ℚ) (n : ℕ) : ℚ := (pyRound (q * 10 ^ n) : ℚ) / 10 ^ n

/-- Python truthiness of an optional number: `None`, missing and `0` are falsy. -/
def truthy : Option ℚ → Bool
  | none => false
  | some x => x ≠ 0

/-- A raw listing record.  Fields are optional because raw records may lack
them; `rented_date` models the ISO date string of the s8 generator as a day
number (ISO strings compare lexicographically exactly as their days compare,
and a missing date, the empty string, precedes every real date). -/
structure Listing where
  lat : Option ℚ
  lng : Option ℚ
  rent : Option ℚ
  beds : Option ℤ
  ptype : Option String
  neighborhood : Option String
  rented_date : Option ℤ
  deriving DecidableEq, Repr

/-- `l.get("rent", 0)` / `l["rent"]` on a cleaned listing. -/
def rentVal (l : Listing) : ℚ := l.rent.getD 0

/-- `l["lat"]` on a cleaned listing (the filter guarantees presence). -/
def latVal (l : Listing) : ℚ := l.lat.getD 0

/-- `l["lng"]` on a cleaned listing (the filter guarantees presence). -/
def lngVal (l : Listing) : ℚ := l.lng.getD 0

/-- One output heat point: `{lat, lng, rent, count}`. -/
structure HeatPoint where
  lat : ℚ
  lng : ℚ
  rent : ℤ
  count : ℕ
  deriving DecidableEq, Repr

instance : Inhabited HeatPoint := ⟨⟨0, 0, 0, 0⟩⟩

/-- The excluded property types (`BAD_TYPES`, identical in both generators). -/
def BAD_TYPES : List String :=
  ["THREEFAMILY", "TWOFAMILY", "MIXED_USE", "TOWNHOUSE", "LAND",
   "FOURFAMILY", "MULTIFAMILY", "COMMERCIAL"]

/-- Step 1 of both generators: `l.get("beds") == 1`. -/
def bedsOK (l : Listing) : Bool := l.beds == some 1

/-- `one_br = [l for l in all_raw if l.get("beds") == 1]`. -/
def oneBR (recs : List Listing) : List Listing := recs.filter bedsOK

/-- `(l.get("type") or "").upper()`. -/
def typeUpper (l : Listing) : String := (l.ptype.getD "").toUpper

/-- The body of the Step-2 cleaning loop of both generators: a record is
appended to `cleaned` iff none of the four `continue` guards fires, in the
source's order (coordinates, high rent, bad type, low rent). -/
def keepRecord (l : Listing) : Bool :=
  if !truthy l.lat || !truthy l.lng then false
  else if rentVal l > 25000 then false
  else if BAD_TYPES.contains (typeUpper l) then false
  else if rentVal l < 500 then false
  else true

/-- The Listing Filter of both generators: Step 1 (`one_br`) followed by the
Step-2 cleaning loop (`cleaned`). -/
def cleaned (recs : List Listing) : List Listing := (oneBR recs).filter keepRecord

/-- Stated from the spec (claim C2), for comparison with `cleaned`: a record
is excluded iff it has a falsy latitude or longitude, or rent above 25000, or
rent below 500, or a case-normalised property type in the exclusion set, or a
bedroom count different from the cohort selector 1. -/
def specViolates (l : Listing) : Bool :=
  !truthy l.lat || !truthy l.lng || rentVal l > 25000 || rentVal l < 500 ||
    BAD_TYPES.contains (typeUpper l) || !(l.beds == some 1)

theorem cleaned_eq_spec_filter (recs : List Listing) :
    cleaned recs = recs.filter (fun l => !specViolates l) := by
  unfold cleaned oneBR
  rw [List.filter_filter]
  apply List.filter_congr
  intro l _
  unfold keepRecord specViolates bedsOK
  by_cases h1 : truthy l.lat <;>
    by_cases h2 : truthy l.lng <;>
      by_cases h3 : rentVal l > 25000 <;>
        by_cases h4 : BAD_TYPES.contains (typeUpper l) = true <;>
          by_cases h5 : rentVal l < 500 <;>
            by_cases h6 : l.beds == some 1 <;>
              simp_all
/-- `BOROUGH_MAP` of the baseline generator (all 258 entries). -/
def BOROUGH_MAP : List (String × String) := [
  ("Battery Park City", "Manhattan"),
  ("Beekman", "Manhattan"),
  ("Carnegie Hill", "Manhattan"),
  ("Central Harlem", "Manhattan"),
  ("Central Park South", "Manhattan"),
  ("Chelsea", "Manhattan"),
  ("Chinatown", "Manhattan"),
  ("Civic Center", "Manhattan"),
  ("East Harlem", "Manhattan"),
  ("East Village", "Manhattan"),
  ("Financial District", "Manhattan"),
  ("Flatiron", "Manhattan"),
  ("Fort George", "Manhattan"),
  ("Fulton/Seaport", "Manhattan"),
  ("Gramercy Park", "Manhattan"),
  ("Greenwich Village", "Manhattan"),
  ("Hamilton Heights", "Manhattan"),
  ("Hell\x27s Kitchen", "Manhattan"),
  ("Hudson Heights", "Manhattan"),
  ("Hudson Square", "Manhattan"),
  ("Hudson Yards", "Manhattan"),
  ("Inwood", "Manhattan"),
  ("Kips Bay", "Manhattan"),
  ("Lenox Hill", "Manhattan"),
  ("Lincoln Square", "Manhattan"),
  ("Little Italy", "Manhattan"),
  ("Lower East Side", "Manhattan"),
  ("Madison", "Manhattan"),
  ("Manhattan Beach", "Brooklyn"),
  ("Manhattan Valley", "Manhattan"),
  ("Manhattanville", "Manhattan"),
  ("Marble Hill", "Manhattan"),
  ("Midtown", "Manhattan"),
  ("Midtown South", "Manhattan"),
  ("Morningside Heights", "Manhattan"),
  ("Murray Hill", "Manhattan"),
  ("NoMad", "Manhattan"),
  ("Noho", "Manhattan"),
  ("Nolita", "Manhattan"),
  ("Roosevelt Island", "Manhattan"),
  ("Soho", "Manhattan"),
  ("South Harlem", "Manhattan"),
  ("Stuyvesant Town/PCV", "Manhattan"),
  ("Sutton Place", "Manhattan"),
  ("Tribeca", "Manhattan"),
  ("Turtle Bay", "Manhattan"),
  ("Two Bridges", "Manhattan"),
  ("Upper Carnegie Hill", "Manhattan"),
  ("Upper East Side", "Manhattan"),
  ("Upper West Side", "Manhattan"),
  ("Washington Heights", "Manhattan"),
  ("West Chelsea", "Manhattan"),
  ("West Harlem", "Manhattan"),
  ("West Village", "Manhattan"),
  ("Yorkville", "Manhattan"),
  ("Bath Beach", "Brooklyn"),
  ("Bay Ridge", "Brooklyn"),
  ("Bedford-Stuyvesant", "Brooklyn"),
  ("Bensonhurst", "Brooklyn"),
  ("Bergen Beach", "Brooklyn"),
  ("Boerum Hill", "Brooklyn"),
  ("Borough Park", "Brooklyn"),
  ("Brooklyn Heights", "Brooklyn"),
  ("Brownsville", "Brooklyn"),
  ("Bushwick", "Brooklyn"),
  ("Canarsie", "Brooklyn"),
  ("Carroll Gardens", "Brooklyn"),
  ("City Line", "Brooklyn"),
  ("Clinton Hill", "Brooklyn"),
  ("Cobble Hill", "Brooklyn"),
  ("Columbia St Waterfront District", "Brooklyn"),
  ("Coney Island", "Brooklyn"),
  ("Crown Heights", "Brooklyn"),
  ("Cypress Hills", "Brooklyn"),
  ("DUMBO", "Brooklyn"),
  ("Ditmars-Steinway", "Queens"),
  ("Ditmas Park", "Brooklyn"),
  ("Downtown Brooklyn", "Brooklyn"),
  ("Dyker Heights", "Brooklyn"),
  ("East Flatbush", "Brooklyn"),
  ("East New York", "Brooklyn"),
  ("East Williamsburg", "Brooklyn"),
  ("Farragut", "Brooklyn"),
  ("Fiske Terrace", "Brooklyn"),
  ("Flatbush", "Brooklyn"),
  ("Flatlands", "Brooklyn"),
  ("Fort Greene", "Brooklyn"),
  ("Fort Hamilton", "Brooklyn"),
  ("Gowanus", "Brooklyn"),
  ("Gravesend", "Brooklyn"),
  ("Greenpoint", "Brooklyn"),
  ("Greenwood", "Brooklyn"),
  ("Homecrest", "Brooklyn"),
  ("Kensington", "Brooklyn"),
  ("Mapleton", "Brooklyn"),
  ("Marine Park", "Brooklyn"),
  ("Midwood", "Brooklyn"),
  ("Mill Basin", "Brooklyn"),
  ("New Lots", "Brooklyn"),
  ("Ocean Hill", "Brooklyn"),
  ("Park Slope", "Brooklyn"),
  ("Prospect Heights", "Brooklyn"),
  ("Prospect Lefferts Gardens", "Brooklyn"),
  ("Prospect Park South", "Brooklyn"),
  ("Red Hook", "Brooklyn"),
  ("Sheepshead Bay", "Brooklyn"),
  ("Starrett City", "Brooklyn"),
  ("Stuyvesant Heights", "Brooklyn"),
  ("Sunset Park", "Brooklyn"),
  ("Vinegar Hill", "Brooklyn"),
  ("Weeksville", "Brooklyn"),
  ("Williamsburg", "Brooklyn"),
  ("Windsor Terrace", "Brooklyn"),
  ("Wingate", "Brooklyn"),
  ("Arverne", "Queens"),
  ("Astoria", "Queens"),
  ("Auburndale", "Queens"),
  ("Bay Terrace", "Queens"),
  ("Bayside", "Queens"),
  ("Bayswater", "Queens"),
  ("Beechhurst", "Queens"),
  ("Briarwood", "Queens"),
  ("Brookville", "Queens"),
  ("College Point", "Queens"),
  ("Corona", "Queens"),
  ("Douglaston", "Queens"),
  ("East Elmhurst", "Queens"),
  ("East Flushing", "Queens"),
  ("Elmhurst", "Queens"),
  ("Far Rockaway", "Queens"),
  ("Flushing", "Queens"),
  ("Forest Hills", "Queens"),
  ("Fresh Meadows", "Queens"),
  ("Glen Oaks", "Queens"),
  ("Glendale", "Queens"),
  ("Hillcrest", "Queens"),
  ("Hollis", "Queens"),
  ("Hunters Point", "Queens"),
  ("Jackson Heights", "Queens"),
  ("Jamaica", "Queens"),
  ("Jamaica Estates", "Queens"),
  ("Jamaica Hills", "Queens"),
  ("Kew Gardens", "Queens"),
  ("Kew Gardens Hills", "Queens"),
  ("Laurelton", "Queens"),
  ("Lindenwood", "Queens"),
  ("Little Neck", "Queens"),
  ("Long Island City", "Queens"),
  ("Malba", "Queens"),
  ("Maspeth", "Queens"),
  ("Middle Village", "Queens"),
  ("North Corona", "Queens"),
  ("North New York", "Queens"),
  ("Oakland Gardens", "Queens"),
  ("Old Howard Beach", "Queens"),
  ("Ozone Park", "Queens"),
  ("Pomonok", "Queens"),
  ("Queens", "Queens"),
  ("Queens Village", "Queens"),
  ("Rego Park", "Queens"),
  ("Richmond Hill", "Queens"),
  ("Ridgewood", "Queens"),
  ("Rockaway Park", "Queens"),
  ("Rockwood Park", "Queens"),
  ("Rosedale", "Queens"),
  ("South Jamaica", "Queens"),
  ("South Ozone Park", "Queens"),
  ("Springfield Gardens", "Queens"),
  ("St. Albans", "Queens"),
  ("Sunnyside", "Queens"),
  ("The Rockaways", "Queens"),
  ("Whitestone", "Queens"),
  ("Woodhaven", "Queens"),
  ("Woodside", "Queens"),
  ("Bedford Park", "Bronx"),
  ("Belmont", "Bronx"),
  ("Bronxwood", "Bronx"),
  ("City Island", "Bronx"),
  ("Claremont", "Bronx"),
  ("Concourse", "Bronx"),
  ("Country Club", "Bronx"),
  ("Crotona Park East", "Bronx"),
  ("East Tremont", "Bronx"),
  ("Fieldston", "Bronx"),
  ("Fordham", "Bronx"),
  ("Highbridge", "Bronx"),
  ("Hunts Point", "Bronx"),
  ("Kingsbridge", "Bronx"),
  ("Kingsbridge Heights", "Bronx"),
  ("Laconia", "Bronx"),
  ("Locust Point", "Bronx"),
  ("Longwood", "Bronx"),
  ("Melrose", "Bronx"),
  ("Morris Heights", "Bronx"),
  ("Morris Park", "Bronx"),
  ("Morrisania", "Bronx"),
  ("Mott Haven", "Bronx"),
  ("Mt. Hope", "Bronx"),
  ("Norwood", "Bronx"),
  ("Parkchester", "Bronx"),
  ("Pelham Bay", "Bronx"),
  ("Pelham Gardens", "Bronx"),
  ("Pelham Parkway", "Bronx"),
  ("Riverdale", "Bronx"),
  ("Schuylerville", "Bronx"),
  ("Soundview", "Bronx"),
  ("Spuyten Duyvil", "Bronx"),
  ("Throgs Neck", "Bronx"),
  ("Tremont", "Bronx"),
  ("University Heights", "Bronx"),
  ("Van Nest", "Bronx"),
  ("Wakefield", "Bronx"),
  ("West Farms", "Bronx"),
  ("Westchester Square", "Bronx"),
  ("Williamsbridge", "Bronx"),
  ("Woodstock", "Bronx"),
  ("Annadale", "Staten Island"),
  ("Arden Heights", "Staten Island"),
  ("Arrochar", "Staten Island"),
  ("Bulls Head", "Staten Island"),
  ("Castleton Corners", "Staten Island"),
  ("Clifton", "Staten Island"),
  ("Dongan Hills", "Staten Island"),
  ("Elm Park", "Staten Island"),
  ("Eltingville", "Staten Island"),
  ("Emerson Hill", "Staten Island"),
  ("Grant City", "Staten Island"),
  ("Graniteville", "Staten Island"),
  ("Grasmere", "Staten Island"),
  ("Great Kills", "Staten Island"),
  ("Grymes Hill", "Staten Island"),
  ("Huguenot", "Staten Island"),
  ("Mariners Harbor", "Staten Island"),
  ("Meiers Corners", "Staten Island"),
  ("Midland Beach", "Staten Island"),
  ("New Brighton", "Staten Island"),
  ("New Dorp", "Staten Island"),
  ("New Dorp Beach", "Staten Island"),
  ("New Springville", "Staten Island"),
  ("Oakwood", "Staten Island"),
  ("Park Hill", "Staten Island"),
  ("Port Richmond", "Staten Island"),
  ("Princes Bay", "Staten Island"),
  ("Ramblersville", "Queens"),
  ("Richmondtown", "Staten Island"),
  ("Rosebank", "Staten Island"),
  ("Rossville", "Staten Island"),
  ("Saint George", "Staten Island"),
  ("Shore Acres", "Staten Island"),
  ("Silver Lake", "Staten Island"),
  ("South Beach", "Staten Island"),
  ("Stapleton", "Staten Island"),
  ("Tompkinsville", "Staten Island"),
  ("Tottenville", "Staten Island"),
  ("West Brighton", "Staten Island"),
  ("Westerleigh", "Staten Island"),
  ("Willowbrook", "Staten Island"),
  ("Woodrow", "Staten Island")]

/-- `REGION_MAP` of the s8 generator (all 258 entries). -/
def REGION_MAP : List (String × String) := [
  ("Mott Haven", "South Bronx"),
  ("Melrose", "South Bronx"),
  ("Hunts Point", "South Bronx"),
  ("Longwood", "South Bronx"),
  ("Morrisania", "South Bronx"),
  ("Concourse", "South Bronx"),
  ("Highbridge", "South Bronx"),
  ("Crotona Park East", "South Bronx"),
  ("Woodstock", "South Bronx"),
  ("Bedford Park", "Bronx"),
  ("Belmont", "Bronx"),
  ("Bronxwood", "Bronx"),
  ("City Island", "Bronx"),
  ("Claremont", "Bronx"),
  ("Country Club", "Bronx"),
  ("East Tremont", "Bronx"),
  ("Fieldston", "Bronx"),
  ("Fordham", "Bronx"),
  ("Kingsbridge", "Bronx"),
  ("Kingsbridge Heights", "Bronx"),
  ("Laconia", "Bronx"),
  ("Locust Point", "Bronx"),
  ("Morris Heights", "Bronx"),
  ("Morris Park", "Bronx"),
  ("Mt. Hope", "Bronx"),
  ("Norwood", "Bronx"),
  ("Parkchester", "Bronx"),
  ("Pelham Bay", "Bronx"),
  ("Pelham Gardens", "Bronx"),
  ("Pelham Parkway", "Bronx"),
  ("Riverdale", "Bronx"),
  ("Schuylerville", "Bronx"),
  ("Soundview", "Bronx"),
  ("Spuyten Duyvil", "Bronx"),
  ("Throgs Neck", "Bronx"),
  ("Tremont", "Bronx"),
  ("University Heights", "Bronx"),
  ("Van Nest", "Bronx"),
  ("Wakefield", "Bronx"),
  ("West Farms", "Bronx"),
  ("Westchester Square", "Bronx"),
  ("Williamsbridge", "Bronx"),
  ("Battery Park City", "Lower Manhattan"),
  ("Beekman", "Lower Manhattan"),
  ("Carnegie Hill", "Lower Manhattan"),
  ("Central Park South", "Lower Manhattan"),
  ("Chelsea", "Lower Manhattan"),
  ("Chinatown", "Lower Manhattan"),
  ("Civic Center", "Lower Manhattan"),
  ("East Village", "Lower Manhattan"),
  ("Financial District", "Lower Manhattan"),
  ("Flatiron", "Lower Manhattan"),
  ("Fulton/Seaport", "Lower Manhattan"),
  ("Gramercy Park", "Lower Manhattan"),
  ("Greenwich Village", "Lower Manhattan"),
  ("Hell\x27s Kitchen", "Lower Manhattan"),
  ("Hudson Square", "Lower Manhattan"),
  ("Hudson Yards", "Lower Manhattan"),
  ("Kips Bay", "Lower Manhattan"),
  ("Lenox Hill", "Lower Manhattan"),
  ("Lincoln Square", "Lower Manhattan"),
  ("Little Italy", "Lower Manhattan"),
  ("Lower East Side", "Lower Manhattan"),
  ("Madison", "Lower Manhattan"),
  ("Manhattan Valley", "Lower Manhattan"),
  ("Midtown", "Lower Manhattan"),
  ("Midtown South", "Lower Manhattan"),
  ("Murray Hill", "Lower Manhattan"),
  ("NoMad", "Lower Manhattan"),
  ("Noho", "Lower Manhattan"),
  ("Nolita", "Lower Manhattan"),
  ("Roosevelt Island", "Lower Manhattan"),
  ("Soho", "Lower Manhattan"),
  ("Stuyvesant Town/PCV", "Lower Manhattan"),
  ("Sutton Place", "Lower Manhattan"),
  ("Tribeca", "Lower Manhattan"),
  ("Turtle Bay", "Lower Manhattan"),
  ("Two Bridges", "Lower Manhattan"),
  ("Upper Carnegie Hill", "Lower Manhattan"),
  ("Upper East Side", "Lower Manhattan"),
  ("Upper West Side", "Lower Manhattan"),
  ("West Chelsea", "Lower Manhattan"),
  ("West Village", "Lower Manhattan"),
  ("Yorkville", "Lower Manhattan"),
  ("Central Harlem", "Upper Manhattan"),
  ("East Harlem", "Upper Manhattan"),
  ("Fort George", "Upper Manhattan"),
  ("Hamilton Heights", "Upper Manhattan"),
  ("Hudson Heights", "Upper Manhattan"),
  ("Inwood", "Upper Manhattan"),
  ("Manhattanville", "Upper Manhattan"),
  ("Marble Hill", "Upper Manhattan"),
  ("Morningside Heights", "Upper Manhattan"),
  ("South Harlem", "Upper Manhattan"),
  ("Washington Heights", "Upper Manhattan"),
  ("West Harlem", "Upper Manhattan"),
  ("Bedford-Stuyvesant", "North Brooklyn"),
  ("Boerum Hill", "North Brooklyn"),
  ("Brooklyn Heights", "North Brooklyn"),
  ("Bushwick", "North Brooklyn"),
  ("Carroll Gardens", "North Brooklyn"),
  ("Clinton Hill", "North Brooklyn"),
  ("Cobble Hill", "North Brooklyn"),
  ("Columbia St Waterfront District", "North Brooklyn"),
  ("Crown Heights", "North Brooklyn"),
  ("DUMBO", "North Brooklyn"),
  ("Downtown Brooklyn", "North Brooklyn"),
  ("East Williamsburg", "North Brooklyn"),
  ("Fort Greene", "North Brooklyn"),
  ("Gowanus", "North Brooklyn"),
  ("Greenpoint", "North Brooklyn"),
  ("Ocean Hill", "North Brooklyn"),
  ("Park Slope", "North Brooklyn"),
  ("Prospect Heights", "North Brooklyn"),
  ("Red Hook", "North Brooklyn"),
  ("Stuyvesant Heights", "North Brooklyn"),
  ("Vinegar Hill", "North Brooklyn"),
  ("Weeksville", "North Brooklyn"),
  ("Williamsburg", "North Brooklyn"),
  ("Windsor Terrace", "North Brooklyn"),
  ("Bath Beach", "South Brooklyn"),
  ("Bay Ridge", "South Brooklyn"),
  ("Bensonhurst", "South Brooklyn"),
  ("Bergen Beach", "South Brooklyn"),
  ("Borough Park", "South Brooklyn"),
  ("Brownsville", "South Brooklyn"),
  ("Canarsie", "South Brooklyn"),
  ("City Line", "South Brooklyn"),
  ("Coney Island", "South Brooklyn"),
  ("Cypress Hills", "South Brooklyn"),
  ("Ditmas Park", "South Brooklyn"),
  ("Dyker Heights", "South Brooklyn"),
  ("East Flatbush", "South Brooklyn"),
  ("East New York", "South Brooklyn"),
  ("Farragut", "South Brooklyn"),
  ("Fiske Terrace", "South Brooklyn"),
  ("Flatbush", "South Brooklyn"),
  ("Flatlands", "South Brooklyn"),
  ("Fort Hamilton", "South Brooklyn"),
  ("Gravesend", "South Brooklyn"),
  ("Greenwood", "South Brooklyn"),
  ("Homecrest", "South Brooklyn"),
  ("Kensington", "South Brooklyn"),
  ("Manhattan Beach", "South Brooklyn"),
  ("Mapleton", "South Brooklyn"),
  ("Marine Park", "South Brooklyn"),
  ("Midwood", "South Brooklyn"),
  ("Mill Basin", "South Brooklyn"),
  ("New Lots", "South Brooklyn"),
  ("Prospect Lefferts Gardens", "South Brooklyn"),
  ("Prospect Park South", "South Brooklyn"),
  ("Sheepshead Bay", "South Brooklyn"),
  ("Starrett City", "South Brooklyn"),
  ("Sunset Park", "South Brooklyn"),
  ("Wingate", "South Brooklyn"),
  ("Annadale", "Staten Island"),
  ("Arden Heights", "Staten Island"),
  ("Arrochar", "Staten Island"),
  ("Bulls Head", "Staten Island"),
  ("Castleton Corners", "Staten Island"),
  ("Clifton", "Staten Island"),
  ("Dongan Hills", "Staten Island"),
  ("Elm Park", "Staten Island"),
  ("Eltingville", "Staten Island"),
  ("Emerson Hill", "Staten Island"),
  ("Grant City", "Staten Island"),
  ("Graniteville", "Staten Island"),
  ("Grasmere", "Staten Island"),
  ("Great Kills", "Staten Island"),
  ("Grymes Hill", "Staten Island"),
  ("Huguenot", "Staten Island"),
  ("Mariners Harbor", "Staten Island"),
  ("Meiers Corners", "Staten Island"),
  ("Midland Beach", "Staten Island"),
  ("New Brighton", "Staten Island"),
  ("New Dorp", "Staten Island"),
  ("New Dorp Beach", "Staten Island"),
  ("New Springville", "Staten Island"),
  ("Oakwood", "Staten Island"),
  ("Park Hill", "Staten Island"),
  ("Port Richmond", "Staten Island"),
  ("Princes Bay", "Staten Island"),
  ("Richmondtown", "Staten Island"),
  ("Rosebank", "Staten Island"),
  ("Rossville", "Staten Island"),
  ("Saint George", "Staten Island"),
  ("Shore Acres", "Staten Island"),
  ("Silver Lake", "Staten Island"),
  ("South Beach", "Staten Island"),
  ("Stapleton", "Staten Island"),
  ("Tompkinsville", "Staten Island"),
  ("Tottenville", "Staten Island"),
  ("West Brighton", "Staten Island"),
  ("Westerleigh", "Staten Island"),
  ("Willowbrook", "Staten Island"),
  ("Woodrow", "Staten Island"),
  ("Astoria", "W. Queens"),
  ("Ditmars-Steinway", "W. Queens"),
  ("Hunters Point", "W. Queens"),
  ("Long Island City", "W. Queens"),
  ("Sunnyside", "W. Queens"),
  ("Woodside", "W. Queens"),
  ("Arverne", "Queens"),
  ("Auburndale", "Queens"),
  ("Bay Terrace", "Queens"),
  ("Bayside", "Queens"),
  ("Bayswater", "Queens"),
  ("Beechhurst", "Queens"),
  ("Briarwood", "Queens"),
  ("Brookville", "Queens"),
  ("College Point", "Queens"),
  ("Corona", "Queens"),
  ("Douglaston", "Queens"),
  ("East Elmhurst", "Queens"),
  ("East Flushing", "Queens"),
  ("Elmhurst", "Queens"),
  ("Far Rockaway", "Queens"),
  ("Flushing", "Queens"),
  ("Forest Hills", "Queens"),
  ("Fresh Meadows", "Queens"),
  ("Glen Oaks", "Queens"),
  ("Glendale", "Queens"),
  ("Hillcrest", "Queens"),
  ("Hollis", "Queens"),
  ("Jackson Heights", "Queens"),
  ("Jamaica", "Queens"),
  ("Jamaica Estates", "Queens"),
  ("Jamaica Hills", "Queens"),
  ("Kew Gardens", "Queens"),
  ("Kew Gardens Hills", "Queens"),
  ("Laurelton", "Queens"),
  ("Lindenwood", "Queens"),
  ("Little Neck", "Queens"),
  ("Malba", "Queens"),
  ("Maspeth", "Queens"),
  ("Middle Village", "Queens"),
  ("North Corona", "Queens"),
  ("North New York", "Queens"),
  ("Oakland Gardens", "Queens"),
  ("Old Howard Beach", "Queens"),
  ("Ozone Park", "Queens"),
  ("Pomonok", "Queens"),
  ("Queens", "Queens"),
  ("Queens Village", "Queens"),
  ("Ramblersville", "Queens"),
  ("Rego Park", "Queens"),
  ("Richmond Hill", "Queens"),
  ("Ridgewood", "Queens"),
  ("Rockaway Park", "Queens"),
  ("Rockwood Park", "Queens"),
  ("Rosedale", "Queens"),
  ("South Jamaica", "Queens"),
  ("South Ozone Park", "Queens"),
  ("Springfield Gardens", "Queens"),
  ("St. Albans", "Queens"),
  ("The Rockaways", "Queens"),
  ("Whitestone", "Queens"),
  ("Woodhaven", "Queens")]

/-- Python `n in MAP` / `MAP[n]` on the (duplicate-free) dict literals. -/
def lookupTable (m : List (String × String)) (n : String) : Option String :=
  (m.find? (fun p => p.1 == n)).map (fun p => p.2)

/-- The geometric fallback chain of `get_borough`.  The source's nested `if`
inside the Manhattan bounding box falls through when the inner test fails,
which is the conjoined condition of the first branch here. -/
def boroughFallback (l : Listing) : String :=
  let lat := latVal l
  let lng := lngVal l
  if (-74.03 < lng ∧ lng < -73.90 ∧ 40.70 < lat ∧ lat < 40.88) ∧
      (lng > -73.96 ∨ lat < 40.75) then "Manhattan"
  else if lat < 40.65 ∧ lng < -74.04 then "Staten Island"
  else if lat > 40.80 ∧ lng > -73.94 then "Bronx"
  else if lat > 40.85 then "Bronx"
  else if lat < 40.74 then (if lng < -73.92 then "Brooklyn" else "Queens")
  else if lng > -73.92 then "Queens"
  else "Unknown"

/-- `get_borough` of the baseline generator: table lookup on
`l.get("neighborhood", "")`, then the geometric fallback chain. -/
def get_borough (l : Listing) : String :=
  (lookupTable BOROUGH_MAP (l.neighborhood.getD "")).getD (boroughFallback l)

/-- The geometric fallback chain of `get_region`, ending in the catch-all
`return "Queens"`. -/
def regionFallback (l : Listing) : String :=
  let lat := latVal l
  let lng := lngVal l
  if lat < 40.65 ∧ lng < -74.04 then "Staten Island"
  else if lat > 40.85 ∨ (lat > 40.80 ∧ lng > -73.94) then
    (if lat < 40.818 then "South Bronx" else "Bronx")
  else if (-74.03 < lng ∧ lng < -73.90 ∧ 40.70 < lat ∧ lat < 40.88) ∧
      (lng > -73.96 ∨ lat < 40.75) then
    (if lng > -73.96 ∧ lat ≥ 40.785 then "Upper Manhattan"
     else if lng ≤ -73.96 ∧ lat ≥ 40.800 then "Upper Manhattan"
     else "Lower Manhattan")
  else if lat < 40.74 ∧ lng < -73.83 then
    (if lat > 40.660 then "North Brooklyn" else "South Brooklyn")
  else if lng > -73.95 ∧ lng < -73.90 ∧ lat > 40.73 then "W. Queens"
  else "Queens"

/-- `get_region` of the s8 generator: table lookup, then the geometric
fallback chain. -/
def get_region (l : Listing) : String :=
  (lookupTable REGION_MAP (l.neighborhood.getD "")).getD (regionFallback l)

/-- Some geometric rule of `get_borough` matches the listing's coordinates
(i.e. the fallback chain returns before its final `"Unknown"`). -/
def boroughRuleFires (l : Listing) : Prop :=
  ((-74.03 < lngVal l ∧ lngVal l < -73.90 ∧ 40.70 < latVal l ∧ latVal l < 40.88) ∧
    (lngVal l > -73.96 ∨ latVal l < 40.75)) ∨
  (latVal l < 40.65 ∧ lngVal l < -74.04) ∨
  (latVal l > 40.80 ∧ lngVal l > -73.94) ∨
  latVal l > 40.85 ∨ latVal l < 40.74 ∨ lngVal l > -73.92

instance (l : Listing) : Decidable (boroughRuleFires l) := by
  unfold boroughRuleFires; infer_instance

/-- Some geometric rule of `get_region` matches the listing's coordinates
(i.e. the fallback chain returns before its final catch-all `"Queens"`). -/
def regionRuleFires (l : Listing) : Prop :=
  (latVal l < 40.65 ∧ lngVal l < -74.04) ∨
  (latVal l > 40.85 ∨ (latVal l > 40.80 ∧ lngVal l > -73.94)) ∨
  ((-74.03 < lngVal l ∧ lngVal l < -73.90 ∧ 40.70 < latVal l ∧ latVal l < 40.88) ∧
    (lngVal l > -73.96 ∨ latVal l < 40.75)) ∨
  (latVal l < 40.74 ∧ lngVal l < -73.83) ∨
  (lngVal l > -73.95 ∧ lngVal l < -73.90 ∧ latVal l > 40.73)

instance (l : Listing) : Decidable (regionRuleFires l) := by
  unfold regionRuleFires; infer_instance

set_option maxRecDepth 10000 in
theorem region_map_values_known : ∀ p ∈ REGION_MAP, p.2 ≠ "Unknown" := by decide

set_option maxRecDepth 10000 in
theorem lookup_region_nowhere : lookupTable REGION_MAP "Nowhere" = none := by decide

set_option maxRecDepth 10000 in
theorem lookup_borough_nowhere : lookupTable BOROUGH_MAP "Nowhere" = none := by decide

theorem regionFallback_ne_unknown (l : Listing) : regionFallback l ≠ "Unknown" := by
  unfold regionFallback
  dsimp only
  split_ifs <;> simp

theorem get_region_ne_unknown (l : Listing) : get_region l ≠ "Unknown" := by
  unfold get_region
  cases h : lookupTable REGION_MAP (l.neighborhood.getD "") with
  | some r =>
    have hmem : ∃ p ∈ REGION_MAP, p.2 = r := by
      unfold lookupTable at h
      cases hf : REGION_MAP.find? (fun p => p.1 == l.neighborhood.getD "") with
      | none => rw [hf] at h; simp at h
      | some p =>
        rw [hf] at h
        refine ⟨p, List.mem_of_find?_eq_some hf, ?_⟩
        simpa using h
    obtain ⟨p, hp, hpr⟩ := hmem
    simpa [hpr] using region_map_values_known p hp
  | none => simpa using regionFallback_ne_unknown l

/-- The listing used to exercise the classifier fallbacks: an unknown
neighborhood at coordinates matched by no geometric rule. -/
def noRuleListing : Listing :=
  { lat := some 40.75, lng := some (-73.99), rent := some 1000, beds := some 1,
    ptype := none, neighborhood := some "Nowhere", rented_date := none }

theorem c8_cex :
    lookupTable REGION_MAP "Nowhere" = none ∧ ¬ regionRuleFires noRuleListing ∧
      get_region noRuleListing = "Queens" := by
  refine ⟨lookup_region_nowhere, ?_, ?_⟩
  · norm_num [regionRuleFires, latVal, lngVal, noRuleListing]
  · unfold get_region
    rw [show noRuleListing.neighborhood.getD "" = "Nowhere" from rfl, lookup_region_nowhere]
    norm_num [regionFallback, latVal, lngVal, noRuleListing]

/-- C8 (amended): both classifiers are total; `get_borough` returns the
sentinel `"Unknown"` whenever the neighborhood has no table entry and no
geometric rule matches, while `get_region` never returns `"Unknown"` (its
fallback chain ends in the concrete region `"Queens"` instead). -/
theorem c8_classifier_fallback (l : Listing) :
    (lookupTable BOROUGH_MAP (l.neighborhood.getD "") = none → ¬ boroughRuleFires l →
      get_borough l = "Unknown") ∧ get_region l ≠ "Unknown" := by
  constructor
  · intro h hn
    unfold get_borough
    rw [h]
    simp only [Option.getD_none]
    unfold boroughFallback
    dsimp only
    split_ifs with h1 h2 h3 h4 h5 h6 h7
    · exact absurd (show boroughRuleFires l from Or.inl h1) hn
    · exact absurd (show boroughRuleFires l from Or.inr (Or.inl h2)) hn
    · exact absurd (show boroughRuleFires l from Or.inr (Or.inr (Or.inl h3))) hn
    · exact absurd (show boroughRuleFires l from Or.inr (Or.inr (Or.inr (Or.inl h4)))) hn
    · exact absurd (show boroughRuleFires l from Or.inr (Or.inr (Or.inr (Or.inr (Or.inl h5))))) hn
    · exact absurd (show boroughRuleFires l from Or.inr (Or.inr (Or.inr (Or.inr (Or.inl h5))))) hn
    · exact absurd (show boroughRuleFires l from Or.inr (Or.inr (Or.inr (Or.inr (Or.inr h7))))) hn
    · rfl
  · exact get_region_ne_unknown l

theorem c8_witness :
    get_borough noRuleListing = "Unknown" ∧ get_region noRuleListing ≠ "Unknown" :=
  ⟨(c8_classifier_fallback noRuleListing).1 lookup_borough_nowhere
      (by norm_num [boroughRuleFires, latVal, lngVal, noRuleListing]),
   (c8_classifier_fallback noRuleListing).2⟩

/-- `statistics.median`: middle element of the sorted list when odd, mean of
the two middle elements when even (the sources only call it on nonempty
lists; the default 0 is never read). -/
def statMedian (xs : List ℚ) : ℚ :=
  if xs.length % 2 = 1 then (List.insertionSort (· ≤ ·) xs).getD (xs.length / 2) 0
  else ((List.insertionSort (· ≤ ·) xs).getD (xs.length / 2 - 1) 0 +
        (List.insertionSort (· ≤ ·) xs).getD (xs.length / 2) 0) / 2

/-- `sorted(xs)[len(xs) // 2]`: the upper median used by the baseline for
grid cells and by both generators for clamp neighbourhoods. -/
def upperMedian (xs : List ℚ) : ℚ :=
  (List.insertionSort (· ≤ ·) xs).getD (xs.length / 2) 0

/-- `sorted(xs)[len(xs) // 2]` on integer rents. -/
def upperMedianZ (xs : List ℤ) : ℤ :=
  (List.insertionSort (· ≤ ·) xs).getD (xs.length / 2) 0

/-- `SPATIAL_GRID` (both generators). -/
def SPATIAL_GRID : ℚ := 0.01

/-- The coarse spatial key `(round(lat/G)*G, round(lng/G)*G)`. -/
def skey (lat lng : ℚ) : ℚ × ℚ :=
  ((pyRound (lat / SPATIAL_GRID) : ℚ) * SPATIAL_GRID,
   (pyRound (lng / SPATIAL_GRID) : ℚ) * SPATIAL_GRID)

/-- The rents collected in a coarse cell (`spatial_cells[key]`). -/
def spatialCellRents (cohort : List Listing) (k : ℚ × ℚ) : List ℚ :=
  (cohort.filter (fun l => skey (latVal l) (lngVal l) == k)).map rentVal

/-- `get_spatial_median`: the stored median for coarse cells with at least 3
listings, absent otherwise (both generators). -/
def get_spatial_median (cohort : List Listing) (lat lng : ℚ) : Option ℚ :=
  let rents := spatialCellRents cohort (skey lat lng)
  if 3 ≤ rents.length then some (statMedian rents) else none

/-- Rule 1 of the baseline RS filter (`odd_under_2500`):
`rent < 2500 and rent % 5 != 0`, Python `%` being `r - 5*floor(r/5)`. -/
def dhcrRule (l : Listing) : Bool :=
  decide (rentVal l < 2500) && decide (rentVal l - 5 * ⌊rentVal l / 5⌋ ≠ 0)

/-- The ratio rule `sm and rent < sm * τ` shared by both generators
(Python truthiness: an absent or zero local median never fires). -/
def ratioRule (sm : Option ℚ) (τ : ℚ) (rent : ℚ) : Bool :=
  match sm with
  | none => false
  | some m => decide (m ≠ 0) && decide (rent < m * τ)

/-- `is_rs` of the baseline generator; the ratio threshold τ (0.50 in the
source) is kept as configuration. -/
def is_rs (lookup : ℚ → ℚ → Option ℚ) (τ : ℚ) (l : Listing) : Bool :=
  dhcrRule l || ratioRule (lookup (latVal l) (lngVal l)) τ (rentVal l)

/-- `non_rs` of the baseline generator. -/
def non_rs (lookup : ℚ → ℚ → Option ℚ) (τ : ℚ) (recs : List Listing) : List Listing :=
  recs.filter (fun l => !(is_rs lookup τ l))

/-- `rs_flagged` of the baseline generator. -/
def rs_flagged (lookup : ℚ → ℚ → Option ℚ) (τ : ℚ) (recs : List Listing) : ℕ :=
  (recs.filter (is_rs lookup τ)).length

/-- `is_rs` of the s8 generator: the single ratio rule (τ = 0.60 in the
source). -/
def s8_is_rs (lookup : ℚ → ℚ → Option ℚ) (τ : ℚ) (l : Listing) : Bool :=
  ratioRule (lookup (latVal l) (lngVal l)) τ (rentVal l)

/-- `non_rs` of the s8 generator. -/
def s8_non_rs (lookup : ℚ → ℚ → Option ℚ) (τ : ℚ) (recs : List Listing) : List Listing :=
  recs.filter (fun l => !(s8_is_rs lookup τ l))

/-- `rs_flagged` of the s8 generator. -/
def s8_rs_flagged (lookup : ℚ → ℚ → Option ℚ) (τ : ℚ) (recs : List Listing) : ℕ :=
  (recs.filter (s8_is_rs lookup τ)).length

/-- Keys of a Python `dict` built by grouping: first-occurrence order. -/
def dedupFirst {α : Type} [DecidableEq α] (xs : List α) : List α :=
  xs.foldl (fun acc a => if a ∈ acc then acc else acc ++ [a]) []

/-- `get_grid_size` (identical in both generators). -/
def get_grid_size (lat lng : ℚ) : ℚ :=
  if lat < 40.786 ∧ lng > -74.02 ∧ lng < -73.93 then 0.002
  else if 40.68 < lat ∧ lat < 40.73 ∧ -73.99 < lng ∧ lng < -73.93 then 0.002
  else 0.003

/-- `MIN_CELL_COUNT` (both generators). -/
def MIN_CELL_COUNT : ℕ := 2

/-- The grid-cell key of a listing:
`(round(round(lat/gs)*gs, 6), round(round(lng/gs)*gs, 6), gs)`. -/
def cellKeyOf (l : Listing) : ℚ × ℚ × ℚ :=
  let gs := get_grid_size (latVal l) (lngVal l)
  (roundTo ((pyRound (latVal l / gs) : ℚ) * gs) 6,
   roundTo ((pyRound (lngVal l / gs) : ℚ) * gs) 6, gs)

/-- Cell keys in first-insertion order (the `grid_cells` dict order). -/
def gridKeys (recs : List Listing) : List (ℚ × ℚ × ℚ) :=
  dedupFirst (recs.map cellKeyOf)

/-- The listings of one grid cell, in input order. -/
def cellListings (recs : List Listing) (k : ℚ × ℚ × ℚ) : List Listing :=
  recs.filter (fun l => cellKeyOf l == k)

/-- One baseline heat point: upper-median rent of the cell, truncated with
`int()`; `count` is the raw listing count. -/
def mkBaselineHeatPoint (k : ℚ × ℚ × ℚ) (lsts : List Listing) : HeatPoint :=
  { lat := roundTo k.1 4, lng := roundTo k.2.1 4,
    rent := pyInt (upperMedian (lsts.map rentVal)), count := lsts.length }

/-- `heat_points` of the baseline generator before smoothing: cells with
fewer than `MIN_CELL_COUNT` listings are dropped. -/
def heat_points_baseline (recs : List Listing) : List HeatPoint :=
  (gridKeys recs).filterMap (fun k =>
    let lsts := cellListings recs k
    if lsts.length < MIN_CELL_COUNT then none
    else some (mkBaselineHeatPoint k lsts))

/-- `l.get("neighborhood", "Unknown")` in the s8 cell loop. -/
def nbhdKey (l : Listing) : String := l.neighborhood.getD "Unknown"

/-- The s8 cell value: neighbourhood-equalised mean when the cell holds more
than one neighbourhood, plain mean otherwise. -/
def s8CellRent (lsts : List Listing) : ℚ :=
  let nhoods := dedupFirst (lsts.map nbhdKey)
  if 1 < nhoods.length then
    let means := nhoods.map (fun nh =>
      let rents := (lsts.filter (fun l => nbhdKey l == nh)).map rentVal
      rents.sum / (rents.length : ℚ))
    means.sum / (means.length : ℚ)
  else (lsts.map rentVal).sum / (lsts.length : ℚ)

/-- One s8 heat point: `int(round(cell_rent))` with the raw listing count. -/
def mkS8HeatPoint (k : ℚ × ℚ × ℚ) (lsts : List Listing) : HeatPoint :=
  { lat := roundTo k.1 4, lng := roundTo k.2.1 4,
    rent := pyRound (s8CellRent lsts), count := lsts.length }

/-- `heat_points` of the s8 generator before smoothing. -/
def heat_points_s8 (recs : List Listing) : List HeatPoint :=
  (gridKeys recs).filterMap (fun k =>
    let lsts := cellListings recs k
    if lsts.length < MIN_CELL_COUNT then none
    else some (mkS8HeatPoint k lsts))

/-- `SMOOTH_RADIUS` (both generators). -/
def SMOOTH_RADIUS : ℚ := 0.008

/-- The squared euclidean distance `dlat**2 + dlng**2`; the sources compare
its square root against the radii, which is equivalent to comparing it
against the squared radii. -/
def distSq (p q : HeatPoint) : ℚ := (p.lat - q.lat) ^ 2 + (p.lng - q.lng) ^ 2

/-- The smoothing neighbours of point `i`: every other point with
`0 < dist < SMOOTH_RADIUS`, in list order. -/
def smoothNbrs (ps : List HeatPoint) (i : ℕ) : List HeatPoint :=
  ((List.range ps.length).filter (fun j =>
      j != i && decide (distSq (ps.getD i default) (ps.getD j default) < SMOOTH_RADIUS ^ 2)
        && decide (0 < distSq (ps.getD i default) (ps.getD j default)))).map
    (fun j => ps.getD j default)

/-- One smoothed point.  The weight `w p q` each neighbour contributes is the
float the source computes (`1/dist` in the baseline, `(1/dist)*exp(-Δrent²/σ²)`
in the s8 variant) — a positive rational in every actual run — kept here as a
parameter; the fixed anchor weight 2.0 on the point's own rent is literal. -/
def smoothAt (w : HeatPoint → HeatPoint → ℚ) (ps : List HeatPoint) (i : ℕ) : HeatPoint :=
  let p := ps.getD i default
  let nbrs := smoothNbrs ps i
  let total_weight : ℚ := 2 + (nbrs.map (fun q => w p q)).sum
  let weighted_rent : ℚ := (p.rent : ℚ) * 2 + (nbrs.map (fun q => w p q * (q.rent : ℚ))).sum
  { p with rent := pyRound (weighted_rent / total_weight) }

/-- The smoothing pass: a new list is built (`smoothed_points`), every point
computed from the pre-pass snapshot. -/
def smoothPass (w : HeatPoint → HeatPoint → ℚ) (ps : List HeatPoint) : List HeatPoint :=
  (List.range ps.length).map (smoothAt w ps)

/-- `CLAMP_RADIUS` (both generators). -/
def CLAMP_RADIUS : ℚ := 0.015

/-- `CLAMP_THRESHOLD` (both generators). -/
def CLAMP_THRESHOLD : ℚ := 1.50

/-- `CLAMP_MAX_N` (both generators). -/
def CLAMP_MAX_N : ℕ := 10

/-- The clamp-neighbour rents of point `i` in the current list state: every
other point with `dist < CLAMP_RADIUS` (coincident points included). -/
def clampNbrRents (ps : List HeatPoint) (i : ℕ) : List ℤ :=
  ((List.range ps.length).filter (fun j =>
      j != i && decide (distSq (ps.getD i default) (ps.getD j default) < CLAMP_RADIUS ^ 2))).map
    (fun j => (ps.getD j default).rent)

/-- The body of the clamping loop for index `i` against the current state:
skip high-confidence points, skip points with no neighbour, replace the rent
by the neighbour upper median when it exceeds `median * CLAMP_THRESHOLD`. -/
def clampPointAt (ps : List HeatPoint) (i : ℕ) : HeatPoint :=
  let p := ps.getD i default
  if CLAMP_MAX_N ≤ p.count then p
  else
    let nbrs := clampNbrRents ps i
    if nbrs.length = 0 then p
    else
      let med := upperMedianZ nbrs
      if (med : ℚ) * CLAMP_THRESHOLD < (p.rent : ℚ) then { p with rent := med } else p

/-- One iteration of the clamping loop: `hp["rent"] = neighbor_med` mutates
the list in place at index `i`. -/
def clampStep (ps : List HeatPoint) (i : ℕ) : List HeatPoint := ps.set i (clampPointAt ps i)

/-- The clamping loop from index `i` on, with explicit fuel (the loop runs
for `i = 0 .. len-1` and `clampStep` preserves the length). -/
def clampFrom : ℕ → List HeatPoint → ℕ → List HeatPoint
  | 0, ps, _ => ps
  | fuel + 1, ps, i => if i < ps.length then clampFrom fuel (clampStep ps i) (i + 1) else ps

/-- The sequential in-place clamping pass of both generators. -/
def clampPass (ps : List HeatPoint) : List HeatPoint := clampFrom ps.length ps 0

/-- Stated from the spec (claim C1), for comparison with `clampPass`: the
clamper that reads only the pre-pass snapshot for every point. -/
def clampSnapshot (ps : List HeatPoint) : List HeatPoint :=
  (List.range ps.length).map (clampPointAt ps)

/-- The output order `key=lambda x: (-x["rent"], x["lat"])`. -/
def outLE (a b : HeatPoint) : Prop := b.rent < a.rent ∨ (a.rent = b.rent ∧ a.lat ≤ b.lat)

instance : DecidableRel outLE := fun a b => by unfold outLE; infer_instance

instance : IsTotal HeatPoint outLE where
  total a b := by
    unfold outLE
    rcases lt_trichotomy a.rent b.rent with h | h | h
    · exact Or.inr (Or.inl h)
    · rcases le_total a.lat b.lat with hl | hl
      · exact Or.inl (Or.inr ⟨h, hl⟩)
      · exact Or.inr (Or.inr ⟨h.symm, hl⟩)
    · exact Or.inl (Or.inl h)

instance : IsTrans HeatPoint outLE where
  trans a b c hab hbc := by
    unfold outLE at *
    rcases hab with h1 | ⟨e1, l1⟩
    · rcases hbc with h2 | ⟨e2, _⟩
      · exact Or.inl (h2.trans h1)
      · exact Or.inl (e2 ▸ h1)
    · rcases hbc with h2 | ⟨e2, l2⟩
      · exact Or.inl (e1 ▸ h2)
      · exact Or.inr ⟨e1.trans e2, l1.trans l2⟩

/-- `heat_points.sort(key=lambda x: (-x["rent"], x["lat"]))`: Python's sort
is stable, as is insertion sort with this total preorder. -/
def sortOutput (ps : List HeatPoint) : List HeatPoint := List.insertionSort outLE ps

/-- The whole baseline pipeline, from raw records to the sorted output
(Step 5's borough medians are diagnostics only and do not feed the output). -/
def baselinePipeline (w : HeatPoint → HeatPoint → ℚ) (recs : List Listing) : List HeatPoint :=
  let cohort := cleaned recs
  let market := non_rs (get_spatial_median cohort) 0.50 cohort
  sortOutput (clampPass (smoothPass w (heat_points_baseline market)))

/-- The s8 cutoff window: `timedelta(days=4 * 30)`. -/
def CUTOFF_DAYS : ℤ := 4 * 30

/-- `rented_recent`: records whose `rented_date` is on or after the cutoff
`today - 120 days`.  The source compares ISO date strings, modelled as day
numbers (lexicographic order on ISO strings is day order, and the `""`
default for a missing date precedes every real date). -/
def rented_recent (today : ℤ) (rented : List Listing) : List Listing :=
  rented.filter (fun r =>
    match r.rented_date with
    | none => false
    | some d => decide (today - CUTOFF_DAYS ≤ d))

/-- The whole s8 pipeline.  `today` is the wall-clock date the run happens
on (`datetime.now()`), which the source turns into the rented-records
cutoff; it is neither part of the input records nor of the configuration. -/
def s8Pipeline (w : HeatPoint → HeatPoint → ℚ) (today : ℤ)
    (listings rented : List Listing) : List HeatPoint :=
  let all_raw := listings ++ rented_recent today rented
  let cohort := cleaned all_raw
  let market := s8_non_rs (get_spatial_median cohort) 0.60 cohort
  sortOutput (clampPass (smoothPass w (heat_points_s8 market)))

theorem ratioRule_mono {sm : Option ℚ} {τ₁ τ₂ rent : ℚ}
    (hm : ∀ m, sm = some m → 0 ≤ m) (hτ : τ₁ ≤ τ₂)
    (h : ratioRule sm τ₁ rent = true) : ratioRule sm τ₂ rent = true := by
  cases sm with
  | none => simp [ratioRule] at h
  | some m =>
    simp only [ratioRule, Bool.and_eq_true, decide_eq_true_eq] at h ⊢
    exact ⟨h.1, h.2.trans_le (mul_le_mul_of_nonneg_left hτ (hm m rfl))⟩

/-- C9 (confirmed): with every stored local median nonnegative, raising the
ratio threshold τ never decreases the flagged count, in the baseline filter
(ratio rule OR digit rule) and in the s8 filter (ratio rule alone); and a
listing whose coarse cell has no stored median is never flagged by the ratio
rule at any τ. -/
theorem c9_stabilization_monotone
    (lookup : ℚ → ℚ → Option ℚ) (τ₁ τ₂ : ℚ) (recs : List Listing)
    (hm : ∀ la ln m, lookup la ln = some m → 0 ≤ m) (hτ : τ₁ ≤ τ₂) :
    rs_flagged lookup τ₁ recs ≤ rs_flagged lookup τ₂ recs ∧
    s8_rs_flagged lookup τ₁ recs ≤ s8_rs_flagged lookup τ₂ recs ∧
    ∀ l : Listing, lookup (latVal l) (lngVal l) = none →
      ratioRule (lookup (latVal l) (lngVal l)) τ₁ (rentVal l) = false := by
  refine ⟨?_, ?_, ?_⟩
  · unfold rs_flagged
    rw [← List.countP_eq_length_filter, ← List.countP_eq_length_filter]
    refine List.countP_mono_left ?_
    intro l _ h
    simp only [is_rs, Bool.or_eq_true] at h ⊢
    rcases h with h | h
    · exact Or.inl h
    · exact Or.inr (ratioRule_mono (fun m => hm _ _ m) hτ h)
  · unfold s8_rs_flagged
    rw [← List.countP_eq_length_filter, ← List.countP_eq_length_filter]
    refine List.countP_mono_left ?_
    intro l _ h
    exact ratioRule_mono (fun m => hm _ _ m) hτ h
  · intro l h
    rw [h]
    rfl

theorem c9_witness :
    rs_flagged (fun _ _ => none) (1/2) [noRuleListing] ≤
      rs_flagged (fun _ _ => none) (3/5) [noRuleListing] ∧
    s8_rs_flagged (fun _ _ => none) (1/2) [noRuleListing] ≤
      s8_rs_flagged (fun _ _ => none) (3/5) [noRuleListing] ∧
    ratioRule ((fun (_ _ : ℚ) => (none : Option ℚ)) (latVal noRuleListing)
      (lngVal noRuleListing)) (1/2) (rentVal noRuleListing) = false :=
  have h := c9_stabilization_monotone (fun _ _ => none) (1/2) (3/5) [noRuleListing]
    (fun _ _ _ hsome => nomatch hsome) (by norm_num)
  ⟨h.1, h.2.1, h.2.2 noRuleListing rfl⟩

/-- A synthetic one-bedroom listing for concrete test inputs. -/
def mkListing (lat lng rent : ℚ) (nh : String) : Listing :=
  { lat := some lat, lng := some lng, rent := some rent, beds := some 1,
    ptype := none, neighborhood := some nh, rented_date := none }

/-- C4 counterexample input: two listings in one cell with rents 1000, 2000. -/
def evenCellA : Listing := mkListing 40.6 (-73.92) 1000 "X"

/-- Second listing of the C4 counterexample cell. -/
def evenCellB : Listing := mkListing 40.6 (-73.92) 2000 "X"

/-- The grid key of the C4 counterexample cell. -/
def evenCellKey : ℚ × ℚ × ℚ := (40.599, -73.92, 0.003)

theorem ck_evenA : cellKeyOf evenCellA = evenCellKey := by
  norm_num [cellKeyOf, evenCellA, mkListing, evenCellKey, get_grid_size, latVal, lngVal,
    roundTo, pyRound]

theorem ck_evenB : cellKeyOf evenCellB = evenCellKey := by
  norm_num [cellKeyOf, evenCellB, mkListing, evenCellKey, get_grid_size, latVal, lngVal,
    roundTo, pyRound]

theorem gk_even : gridKeys [evenCellA, evenCellB] = [evenCellKey] := by
  simp [gridKeys, dedupFirst, ck_evenA, ck_evenB]

theorem cl_even : cellListings [evenCellA, evenCellB] evenCellKey = [evenCellA, evenCellB] := by
  simp [cellListings, ck_evenA, ck_evenB]

theorem mk_even :
    mkBaselineHeatPoint evenCellKey [evenCellA, evenCellB] =
      { lat := 40.599, lng := -73.92, rent := 2000, count := 2 } := by
  norm_num [mkBaselineHeatPoint, evenCellKey, evenCellA, evenCellB, mkListing, rentVal,
    upperMedian, List.insertionSort, List.orderedInsert, pyInt, roundTo, pyRound]

theorem hp_even :
    heat_points_baseline [evenCellA, evenCellB] =
      [{ lat := 40.599, lng := -73.92, rent := 2000, count := 2 }] := by
  rw [heat_points_baseline, gk_even]
  simp [cl_even, mk_even, MIN_CELL_COUNT]

/-- Third listing for the odd-sized witness cell. -/
def oddCellC : Listing := mkListing 40.6 (-73.92) 1500 "X"

theorem ck_oddC : cellKeyOf oddCellC = evenCellKey := by
  norm_num [cellKeyOf, oddCellC, mkListing, evenCellKey, get_grid_size, latVal, lngVal,
    roundTo, pyRound]

theorem gk_odd : gridKeys [evenCellA, evenCellB, oddCellC] = [evenCellKey] := by
  simp [gridKeys, dedupFirst, ck_evenA, ck_evenB, ck_oddC]

theorem cl_odd :
    cellListings [evenCellA, evenCellB, oddCellC] evenCellKey =
      [evenCellA, evenCellB, oddCellC] := by
  simp [cellListings, ck_evenA, ck_evenB, ck_oddC]

theorem mk_odd :
    mkBaselineHeatPoint evenCellKey [evenCellA, evenCellB, oddCellC] =
      { lat := 40.599, lng := -73.92, rent := 1500, count := 3 } := by
  norm_num [mkBaselineHeatPoint, evenCellKey, evenCellA, evenCellB, oddCellC, mkListing,
    rentVal, upperMedian, List.insertionSort, List.orderedInsert, pyInt, roundTo, pyRound]

theorem hp_odd :
    heat_points_baseline [evenCellA, evenCellB, oddCellC] =
      [{ lat := 40.599, lng := -73.92, rent := 1500, count := 3 }] := by
  rw [heat_points_baseline, gk_odd]
  simp [cl_odd, mk_odd, MIN_CELL_COUNT]

/-- C4 counterexample: a two-listing cell with rents 1000 and 2000 yields the
emitted rent 2000 (the upper middle element), not the statistical median 1500
of the cell's rents. -/
theorem c4_cex :
    heat_points_baseline [evenCellA, evenCellB] =
      [{ lat := 40.599, lng := -73.92, rent := 2000, count := 2 }] ∧
    statMedian ((cellListings [evenCellA, evenCellB] evenCellKey).map rentVal) = 1500 := by
  refine ⟨hp_even, ?_⟩
  rw [cl_even]
  norm_num [statMedian, evenCellA, evenCellB, mkListing, rentVal,
    List.insertionSort, List.orderedInsert]

/-- C4 (amended): every baseline heat point takes as rent `int()` of the
element at index `⌊n/2⌋` of the cell's sorted rents — the upper median —
which agrees with the statistical median exactly for odd-sized cells. -/
theorem c4_cell_rent_upper_median (recs : List Listing) (hp : HeatPoint)
    (h : hp ∈ heat_points_baseline recs) :
    ∃ k ∈ gridKeys recs,
      MIN_CELL_COUNT ≤ (cellListings recs k).length ∧
      hp = mkBaselineHeatPoint k (cellListings recs k) ∧
      hp.rent = pyInt (upperMedian ((cellListings recs k).map rentVal)) ∧
      (Odd (cellListings recs k).length →
        upperMedian ((cellListings recs k).map rentVal) =
          statMedian ((cellListings recs k).map rentVal)) := by
  rw [heat_points_baseline, List.mem_filterMap] at h
  obtain ⟨k, hk, hsome⟩ := h
  by_cases hlen : (cellListings recs k).length < MIN_CELL_COUNT
  · rw [if_pos hlen] at hsome; exact absurd hsome (by simp)
  · rw [if_neg hlen] at hsome
    have heq : hp = mkBaselineHeatPoint k (cellListings recs k) :=
      (Option.some.inj hsome).symm
    refine ⟨k, hk, Nat.le_of_not_lt hlen, heq, ?_, ?_⟩
    · rw [heq]; rfl
    · intro hodd
      have hx : ((cellListings recs k).map rentVal).length % 2 = 1 := by
        rw [List.length_map]; exact Nat.odd_iff.mp hodd
      unfold upperMedian statMedian
      rw [if_pos hx, List.length_map]

theorem c4_witness :
    ∃ k ∈ gridKeys [evenCellA, evenCellB, oddCellC],
      MIN_CELL_COUNT ≤ (cellListings [evenCellA, evenCellB, oddCellC] k).length ∧
      ({ lat := 40.599, lng := -73.92, rent := 1500, count := 3 } : HeatPoint) =
        mkBaselineHeatPoint k (cellListings [evenCellA, evenCellB, oddCellC] k) ∧
      ({ lat := 40.599, lng := -73.92, rent := 1500, count := 3 } : HeatPoint).rent =
        pyInt (upperMedian ((cellListings [evenCellA, evenCellB, oddCellC] k).map rentVal)) ∧
      (Odd (cellListings [evenCellA, evenCellB, oddCellC] k).length →
        upperMedian ((cellListings [evenCellA, evenCellB, oddCellC] k).map rentVal) =
          statMedian ((cellListings [evenCellA, evenCellB, oddCellC] k).map rentVal)) :=
  c4_cell_rent_upper_median [evenCellA, evenCellB, oddCellC]
    { lat := 40.599, lng := -73.92, rent := 1500, count := 3 }
    (by rw [hp_odd]; simp)

/-- C3 scenario: the listing at `(40.60, -73.92, rent 3000)` (two copies are
aggregated). -/
def scnA : Listing := mkListing 40.6 (-73.92) 3000 "S"

/-- C3 scenario: the listing at `(40.601, -73.921, rent 3100)`. -/
def scnC : Listing := mkListing 40.601 (-73.921) 3100 "S"

/-- C3 scenario: the lone listing at `(40.70, -73.80, rent 5000)`. -/
def scnD : Listing := mkListing 40.7 (-73.8) 5000 "S"

/-- Cell key of `scnC`: one 0.003-step north of the `scnA` cell. -/
def scnKeyC : ℚ × ℚ × ℚ := (40.602, -73.92, 0.003)

/-- Cell key of `scnD`. -/
def scnKeyD : ℚ × ℚ × ℚ := (40.701, -73.8, 0.003)

theorem ck_scnA : cellKeyOf scnA = evenCellKey := by
  norm_num [cellKeyOf, scnA, mkListing, evenCellKey, get_grid_size, latVal, lngVal,
    roundTo, pyRound]

theorem ck_scnC : cellKeyOf scnC = scnKeyC := by
  norm_num [cellKeyOf, scnC, mkListing, scnKeyC, get_grid_size, latVal, lngVal,
    roundTo, pyRound]

theorem ck_scnD : cellKeyOf scnD = scnKeyD := by
  norm_num [cellKeyOf, scnD, mkListing, scnKeyD, get_grid_size, latVal, lngVal,
    roundTo, pyRound]

theorem key_scnC_ne : scnKeyC ≠ evenCellKey := by
  norm_num [scnKeyC, evenCellKey]

theorem key_scnD_ne : scnKeyD ≠ evenCellKey := by
  norm_num [scnKeyD, evenCellKey]

theorem key_scnD_ne_C : scnKeyD ≠ scnKeyC := by
  norm_num [scnKeyD, scnKeyC]

theorem gk_scn :
    gridKeys [scnA, scnA, scnC, scnD] = [evenCellKey, scnKeyC, scnKeyD] := by
  simp [gridKeys, dedupFirst, ck_scnA, ck_scnC, ck_scnD, key_scnC_ne, key_scnD_ne,
    key_scnD_ne_C]

theorem cl_scn1 : cellListings [scnA, scnA, scnC, scnD] evenCellKey = [scnA, scnA] := by
  simp [cellListings, ck_scnA, ck_scnC, ck_scnD, key_scnC_ne, key_scnD_ne]

theorem cl_scn2 : cellListings [scnA, scnA, scnC, scnD] scnKeyC = [scnC] := by
  simp [cellListings, ck_scnA, ck_scnC, ck_scnD, key_scnC_ne.symm, key_scnD_ne_C]

theorem cl_scn3 : cellListings [scnA, scnA, scnC, scnD] scnKeyD = [scnD] := by
  simp [cellListings, ck_scnA, ck_scnC, ck_scnD, key_scnD_ne.symm, key_scnD_ne_C.symm]

theorem mk_scn1 :
    mkS8HeatPoint evenCellKey [scnA, scnA] =
      { lat := 40.599, lng := -73.92, rent := 3000, count := 2 } := by
  norm_num [mkS8HeatPoint, evenCellKey, scnA, mkListing, s8CellRent, dedupFirst, nbhdKey,
    rentVal, roundTo, pyRound]

theorem hp_scn :
    heat_points_s8 [scnA, scnA, scnC, scnD] =
      [{ lat := 40.599, lng := -73.92, rent := 3000, count := 2 }] := by
  rw [heat_points_s8, gk_scn]
  simp [cl_scn1, cl_scn2, cl_scn3, mk_scn1, MIN_CELL_COUNT]

/-- C3 counterexample: the scenario's four listings produce a single
HeatPoint of count 2 — not the claimed single HeatPoint of count 3. -/
theorem c3_cex :
    (heat_points_s8 [scnA, scnA, scnC, scnD]).map HeatPoint.count = [2] := by
  rw [hp_scn]; rfl

/-- C3 (amended): `(40.601, -73.921)` quantises to the cell `(40.602,
-73.92)`, not to the `(40.599, -73.92)` cell of the `(40.60, -73.92)`
listings; aggregation therefore emits exactly one HeatPoint, with count 2
and plain-mean rent 3000, and the single-listing cells of `(40.601,
-73.921)` and `(40.70, -73.80)` are both dropped. -/
theorem c3_scenario :
    cellKeyOf scnC ≠ cellKeyOf scnA ∧
    heat_points_s8 [scnA, scnA, scnC, scnD] =
      [{ lat := 40.599, lng := -73.92, rent := 3000, count := 2 }] := by
  refine ⟨?_, hp_scn⟩
  rw [ck_scnC, ck_scnA]
  exact key_scnC_ne

/-- The smoothing/clamping-invariant projection of a heat point. -/
def shape (p : HeatPoint) : ℚ × ℚ × ℕ := (p.lat, p.lng, p.count)

theorem map_getD_range {β : Type} (f : HeatPoint → β) (l : List HeatPoint) :
    (List.range l.length).map (fun i => f (l.getD i default)) = l.map f := by
  induction l with
  | nil => rfl
  | cons a l ih =>
    rw [List.length_cons, List.range_succ_eq_map, List.map_cons, List.map_map,
      List.getD_cons_zero]
    refine congrArg (f a :: ·) ?_
    have hfe : ((fun i => f ((a :: l).getD i default)) ∘ Nat.succ) =
        (fun i => f (l.getD i default)) :=
      funext (fun i => by rw [Function.comp_apply, List.getD_cons_succ])
    rw [hfe, ih]

theorem shape_smoothAt (w : HeatPoint → HeatPoint → ℚ) (ps : List HeatPoint) (i : ℕ) :
    shape (smoothAt w ps i) = shape (ps.getD i default) := rfl

theorem smoothPass_shape (w : HeatPoint → HeatPoint → ℚ) (ps : List HeatPoint) :
    (smoothPass w ps).map shape = ps.map shape := by
  unfold smoothPass
  rw [List.map_map]
  have hfe : (shape ∘ smoothAt w ps) = (fun i => shape (ps.getD i default)) :=
    funext (fun i => shape_smoothAt w ps i)
  rw [hfe, map_getD_range shape ps]

theorem shape_clampPointAt (ps : List HeatPoint) (i : ℕ) :
    shape (clampPointAt ps i) = shape (ps.getD i default) := by
  unfold clampPointAt
  dsimp only
  split_ifs <;> rfl

theorem set_getD_self {α : Type} (l : List α) (i : ℕ) (x d : α)
    (hx : x = l.getD i d) : l.set i x = l := by
  apply List.ext_getElem?
  intro n
  rw [List.getElem?_set]
  by_cases h : i = n
  · subst h
    by_cases hl : i < l.length
    · rw [if_pos rfl, if_pos hl, hx, List.getD_eq_getElem?_getD,
        List.getElem?_eq_getElem hl]
      rfl
    · rw [if_pos rfl, if_neg hl, List.getElem?_eq_none (Nat.le_of_not_lt hl)]
  · rw [if_neg h]

theorem clampStep_map_shape (ps : List HeatPoint) (i : ℕ) :
    (clampStep ps i).map shape = ps.map shape := by
  unfold clampStep
  rw [List.map_set]
  apply set_getD_self (d := shape default)
  rw [shape_clampPointAt, List.getD_eq_getElem?_getD, List.getD_eq_getElem?_getD,
    List.getElem?_map]
  cases hpi : ps[i]? <;> rfl

theorem clampStep_length (ps : List HeatPoint) (i : ℕ) :
    (clampStep ps i).length = ps.length := by
  unfold clampStep; exact List.length_set ps i _

theorem clampFrom_map_shape (fuel : ℕ) :
    ∀ (ps : List HeatPoint) (i : ℕ), (clampFrom fuel ps i).map shape = ps.map shape := by
  induction fuel with
  | zero => intro ps i; rfl
  | succ fuel ih =>
    intro ps i
    unfold clampFrom
    split_ifs with h
    · rw [ih, clampStep_map_shape]
    · rfl

theorem clampPass_map_shape (ps : List HeatPoint) :
    (clampPass ps).map shape = ps.map shape := clampFrom_map_shape ps.length ps 0

theorem heat_points_baseline_count (recs : List Listing) (hp : HeatPoint)
    (h : hp ∈ heat_points_baseline recs) : MIN_CELL_COUNT ≤ hp.count := by
  rw [heat_points_baseline, List.mem_filterMap] at h
  obtain ⟨k, _, hsome⟩ := h
  by_cases hlen : (cellListings recs k).length < MIN_CELL_COUNT
  · rw [if_pos hlen] at hsome; exact absurd hsome (by simp)
  · rw [if_neg hlen] at hsome
    rw [← Option.some.inj hsome]
    exact Nat.le_of_not_lt hlen

theorem heat_points_s8_count (recs : List Listing) (hp : HeatPoint)
    (h : hp ∈ heat_points_s8 recs) : MIN_CELL_COUNT ≤ hp.count := by
  rw [heat_points_s8, List.mem_filterMap] at h
  obtain ⟨k, _, hsome⟩ := h
  by_cases hlen : (cellListings recs k).length < MIN_CELL_COUNT
  · rw [if_pos hlen] at hsome; exact absurd hsome (by simp)
  · rw [if_neg hlen] at hsome
    rw [← Option.some.inj hsome]
    exact Nat.le_of_not_lt hlen

/-- C5 (confirmed): every heat point emitted by either aggregator has
`count ≥ MIN_CELL_COUNT`, and both the smoothing pass and the clamping pass
leave every point's `lat`, `lng` and `count` unchanged (they only rewrite
`rent`). -/
theorem c5_occupancy_and_immutability (recs : List Listing)
    (w : HeatPoint → HeatPoint → ℚ) (ps : List HeatPoint) :
    (∀ hp ∈ heat_points_baseline recs, MIN_CELL_COUNT ≤ hp.count) ∧
    (∀ hp ∈ heat_points_s8 recs, MIN_CELL_COUNT ≤ hp.count) ∧
    (smoothPass w ps).map shape = ps.map shape ∧
    (clampPass ps).map shape = ps.map shape :=
  ⟨heat_points_baseline_count recs, heat_points_s8_count recs,
   smoothPass_shape w ps, clampPass_map_shape ps⟩

theorem c5_witness :
    MIN_CELL_COUNT ≤
      ({ lat := 40.599, lng := -73.92, rent := 2000, count := 2 } : HeatPoint).count ∧
    MIN_CELL_COUNT ≤
      ({ lat := 40.599, lng := -73.92, rent := 3000, count := 2 } : HeatPoint).count ∧
    (smoothPass (fun _ _ => 1) [⟨0, 0, 1000, 2⟩]).map shape =
      ([⟨0, 0, 1000, 2⟩] : List HeatPoint).map shape ∧
    (clampPass [⟨0, 0, 1000, 2⟩]).map shape =
      ([⟨0, 0, 1000, 2⟩] : List HeatPoint).map shape :=
  have h := c5_occupancy_and_immutability [evenCellA, evenCellB] (fun _ _ => 1)
    [⟨0, 0, 1000, 2⟩]
  have h3 := c5_occupancy_and_immutability [scnA, scnA, scnC, scnD] (fun _ _ => 1)
    ([] : List HeatPoint)
  ⟨h.1 _ (by rw [hp_even]; simp),
   h3.2.1 _ (by rw [hp_scn]; simp),
   h.2.2.1, h.2.2.2⟩

theorem le_pyRound {a : ℤ} {x : ℚ} (h : (a : ℚ) ≤ x) : a ≤ pyRound x := by
  unfold pyRound
  have hfl : a ≤ ⌊x⌋ := Int.le_floor.mpr h
  split_ifs <;> omega

theorem pyRound_le {b : ℤ} {x : ℚ} (h : x ≤ (b : ℚ)) : pyRound x ≤ b := by
  unfold pyRound
  have h1 : ⌊x⌋ ≤ b := by
    have h2 := Int.floor_le_floor h
    simpa using h2
  have hfx := Int.floor_le x
  split_ifs with c1 c2 c3
  · exact h1
  · have hq : (2 * ⌊x⌋ + 1 : ℚ) < 2 * (b : ℚ) := by
      calc (2 * ⌊x⌋ + 1 : ℚ) < 2 * x := by linarith
        _ ≤ 2 * (b : ℚ) := by linarith
    have hz : 2 * ⌊x⌋ + 1 < 2 * b := by exact_mod_cast hq
    omega
  · exact h1
  · have heq : 2 * x = 2 * (⌊x⌋ : ℚ) + 1 := le_antisymm (not_lt.mp c2) (not_lt.mp c1)
    have hq : (2 * ⌊x⌋ + 1 : ℚ) ≤ 2 * (b : ℚ) := by
      rw [← heq]
      linarith
    have hz : 2 * ⌊x⌋ + 1 ≤ 2 * b := by exact_mod_cast hq
    omega

theorem weighted_sum_bounds (p : HeatPoint) (w : HeatPoint → HeatPoint → ℚ) (lo hi : ℤ)
    (L : List HeatPoint) (hw : ∀ q : HeatPoint, 0 < w p q)
    (hb : ∀ q ∈ L, lo ≤ q.rent ∧ q.rent ≤ hi) :
    (L.map (fun q => w p q)).sum * (lo : ℚ) ≤
        (L.map (fun q => w p q * (q.rent : ℚ))).sum ∧
    (L.map (fun q => w p q * (q.rent : ℚ))).sum ≤
        (L.map (fun q => w p q)).sum * (hi : ℚ) ∧
    0 ≤ (L.map (fun q => w p q)).sum := by
  induction L with
  | nil => simp
  | cons q L ih =>
    obtain ⟨h1, h2, h3⟩ := ih (fun r hr => hb r (List.mem_cons_of_mem q hr))
    obtain ⟨hq1, hq2⟩ := hb q (List.mem_cons_self q L)
    have hq1' : (lo : ℚ) ≤ (q.rent : ℚ) := by exact_mod_cast hq1
    have hq2' : (q.rent : ℚ) ≤ (hi : ℚ) := by exact_mod_cast hq2
    have hwq := hw q
    simp only [List.map_cons, List.sum_cons]
    refine ⟨?_, ?_, by positivity⟩
    · have e1 : w p q * (lo : ℚ) ≤ w p q * (q.rent : ℚ) :=
        mul_le_mul_of_nonneg_left hq1' hwq.le
      calc (w p q + (L.map (fun q => w p q)).sum) * (lo : ℚ)
          = w p q * (lo : ℚ) + (L.map (fun q => w p q)).sum * (lo : ℚ) := by ring
        _ ≤ w p q * (q.rent : ℚ) + (L.map (fun q => w p q * (q.rent : ℚ))).sum :=
          add_le_add e1 h1
    · have e2 : w p q * (q.rent : ℚ) ≤ w p q * (hi : ℚ) :=
        mul_le_mul_of_nonneg_left hq2' hwq.le
      calc w p q * (q.rent : ℚ) + (L.map (fun q => w p q * (q.rent : ℚ))).sum
          ≤ w p q * (hi : ℚ) + (L.map (fun q => w p q)).sum * (hi : ℚ) :=
          add_le_add e2 h2
        _ = (w p q + (L.map (fun q => w p q)).sum) * (hi : ℚ) := by ring

theorem smoothPass_getD (w : HeatPoint → HeatPoint → ℚ) (ps : List HeatPoint) (i : ℕ)
    (h : i < ps.length) : (smoothPass w ps).getD i default = smoothAt w ps i := by
  unfold smoothPass
  rw [List.getD_eq_getElem?_getD, List.getElem?_map, List.getElem?_range h]
  rfl

/-- C10 (confirmed): for any positive weighting, each smoothed rent is the
banker's rounding of a convex combination of the point's own rent (anchor
weight 2) and its neighbours' rents, so it stays inside any integer interval
`[lo, hi]` containing the own rent and all neighbour rents; the total weight
is at least 2, so the division is never by zero. -/
theorem c10_smoothing_in_local_range (w : HeatPoint → HeatPoint → ℚ)
    (ps : List HeatPoint) (i : ℕ) (lo hi : ℤ)
    (hw : ∀ p q : HeatPoint, 0 < w p q)
    (hilen : i < ps.length)
    (hself : lo ≤ (ps.getD i default).rent ∧ (ps.getD i default).rent ≤ hi)
    (hn : ∀ q ∈ smoothNbrs ps i, lo ≤ q.rent ∧ q.rent ≤ hi) :
    lo ≤ ((smoothPass w ps).getD i default).rent ∧
    ((smoothPass w ps).getD i default).rent ≤ hi ∧
    (2 : ℚ) ≤ 2 + ((smoothNbrs ps i).map (fun q => w (ps.getD i default) q)).sum := by
  obtain ⟨hb1, hb2, hb3⟩ :=
    weighted_sum_bounds (ps.getD i default) w lo hi (smoothNbrs ps i)
      (hw (ps.getD i default)) hn
  set p := ps.getD i default with hp
  set W : ℚ := ((smoothNbrs ps i).map (fun q => w p q)).sum with hW
  set S : ℚ := ((smoothNbrs ps i).map (fun q => w p q * (q.rent : ℚ))).sum with hS
  have hself1 : (lo : ℚ) ≤ (p.rent : ℚ) := by exact_mod_cast hself.1
  have hself2 : (p.rent : ℚ) ≤ (hi : ℚ) := by exact_mod_cast hself.2
  have hden : (0 : ℚ) < 2 + W := by linarith
  have hrent : ((smoothPass w ps).getD i default).rent =
      pyRound (((p.rent : ℚ) * 2 + S) / (2 + W)) := by
    rw [smoothPass_getD w ps i hilen]
    rfl
  have hlow : (lo : ℚ) ≤ ((p.rent : ℚ) * 2 + S) / (2 + W) := by
    rw [le_div_iff₀ hden]
    have hWlo : (W : ℚ) * (lo : ℚ) ≤ S := hb1
    nlinarith
  have hhigh : ((p.rent : ℚ) * 2 + S) / (2 + W) ≤ (hi : ℚ) := by
    rw [div_le_iff₀ hden]
    nlinarith
  refine ⟨?_, ?_, by linarith⟩
  · rw [hrent]; exact le_pyRound hlow
  · rw [hrent]; exact pyRound_le hhigh

/-- First smoothing witness point. -/
def smA : HeatPoint := ⟨0, 0, 1000, 2⟩

/-- Second smoothing witness point, 0.004 degrees away. -/
def smB : HeatPoint := ⟨0.004, 0, 2000, 2⟩

theorem sn_smA : smoothNbrs [smA, smB] 0 = [smB] := by
  norm_num [smoothNbrs, distSq, SMOOTH_RADIUS, smA, smB, List.range_succ]

theorem c10_witness :
    1000 ≤ ((smoothPass (fun _ _ => 1) [smA, smB]).getD 0 default).rent ∧
    ((smoothPass (fun _ _ => 1) [smA, smB]).getD 0 default).rent ≤ 2000 ∧
    (2 : ℚ) ≤ 2 + ((smoothNbrs [smA, smB] 0).map
      (fun q => (fun (_ _ : HeatPoint) => (1 : ℚ)) ([smA, smB].getD 0 default) q)).sum :=
  c10_smoothing_in_local_range (fun _ _ => 1) [smA, smB] 0 1000 2000
    (fun _ _ => one_pos) (by norm_num)
    (by constructor <;> decide)
    (by rw [sn_smA]; intro q hq; rw [List.mem_singleton] at hq; subst hq
        exact ⟨by decide, by decide⟩)

theorem getD_set_eq (l : List HeatPoint) (i : ℕ) (v : HeatPoint) (h : i < l.length) :
    (l.set i v).getD i default = v := by
  rw [List.getD_eq_getElem?_getD, List.getElem?_set_self h, Option.getD_some]

theorem getD_set_ne (l : List HeatPoint) (i j : ℕ) (v : HeatPoint) (h : i ≠ j) :
    (l.set i v).getD j default = l.getD j default := by
  rw [List.getD_eq_getElem?_getD, List.getElem?_set_ne h, ← List.getD_eq_getElem?_getD]

theorem getD_mem_of_lt (l : List HeatPoint) (i : ℕ) (h : i < l.length) :
    l.getD i default ∈ l := by
  rw [List.getD_eq_getElem?_getD, List.getElem?_eq_getElem h, Option.getD_some]
  exact List.getElem_mem h

theorem upperMedianZ_mem (xs : List ℤ) (h : xs ≠ []) : upperMedianZ xs ∈ xs := by
  unfold upperMedianZ
  have hlen : xs.length / 2 < (List.insertionSort (· ≤ ·) xs).length := by
    rw [List.length_insertionSort]
    have : 0 < xs.length := List.length_pos.mpr h
    omega
  rw [List.getD_eq_getElem?_getD, List.getElem?_eq_getElem hlen, Option.getD_some]
  exact (List.perm_insertionSort (· ≤ ·) xs).mem_iff.mp (List.getElem_mem hlen)

theorem clampNbrRents_nonneg (ps : List HeatPoint) (i : ℕ)
    (hnn : ∀ q ∈ ps, 0 ≤ q.rent) : ∀ x ∈ clampNbrRents ps i, 0 ≤ x := by
  intro x hx
  unfold clampNbrRents at hx
  rw [List.mem_map] at hx
  obtain ⟨j, hj, rfl⟩ := hx
  rw [List.mem_filter, List.mem_range] at hj
  exact hnn _ (getD_mem_of_lt ps j hj.1)

theorem clampPointAt_rent_le (ps : List HeatPoint) (i : ℕ)
    (hnn : ∀ q ∈ ps, 0 ≤ q.rent) :
    (clampPointAt ps i).rent ≤ (ps.getD i default).rent := by
  simp only [clampPointAt]
  split_ifs with h1 h2 h3
  · exact le_refl _
  · exact le_refl _
  · have hne : clampNbrRents ps i ≠ [] := by
      intro hh
      rw [hh] at h2
      exact h2 rfl
    have hmed0 : 0 ≤ upperMedianZ (clampNbrRents ps i) :=
      clampNbrRents_nonneg ps i hnn _ (upperMedianZ_mem _ hne)
    have hmed0q : (0 : ℚ) ≤ (upperMedianZ (clampNbrRents ps i) : ℚ) := by exact_mod_cast hmed0
    simp only [CLAMP_THRESHOLD] at h3
    have hq : (upperMedianZ (clampNbrRents ps i) : ℚ) ≤ ((ps.getD i default).rent : ℚ) := by
      nlinarith
    exact_mod_cast hq
  · exact le_refl _

theorem clampPointAt_rent_nonneg (ps : List HeatPoint) (i : ℕ)
    (hnn : ∀ q ∈ ps, 0 ≤ q.rent) : 0 ≤ (clampPointAt ps i).rent := by
  have hp : 0 ≤ (ps.getD i default).rent := by
    by_cases h : i < ps.length
    · exact hnn _ (getD_mem_of_lt ps i h)
    · rw [List.getD_eq_getElem?_getD, List.getElem?_eq_none (Nat.le_of_not_lt h)]
      exact le_refl _
  simp only [clampPointAt]
  split_ifs with h1 h2 h3
  · exact hp
  · exact hp
  · have hne : clampNbrRents ps i ≠ [] := by
      intro hh
      rw [hh] at h2
      exact h2 rfl
    exact clampNbrRents_nonneg ps i hnn _ (upperMedianZ_mem _ hne)
  · exact hp

theorem clampStep_nonneg (ps : List HeatPoint) (i : ℕ)
    (hnn : ∀ q ∈ ps, 0 ≤ q.rent) : ∀ q ∈ clampStep ps i, 0 ≤ q.rent := by
  intro q hq
  rcases List.mem_or_eq_of_mem_set hq with h | h
  · exact hnn q h
  · rw [h]
    exact clampPointAt_rent_nonneg ps i hnn

theorem clampFrom_rent_le (fuel : ℕ) :
    ∀ (ps : List HeatPoint) (i : ℕ), (∀ q ∈ ps, 0 ≤ q.rent) →
      ∀ j, ((clampFrom fuel ps i).getD j default).rent ≤ ((ps.getD j default)).rent := by
  induction fuel with
  | zero => intro ps i _ j; exact le_refl _
  | succ fuel ih =>
    intro ps i hnn j
    unfold clampFrom
    split_ifs with h
    · refine le_trans (ih (clampStep ps i) (i + 1) (clampStep_nonneg ps i hnn) j) ?_
      by_cases hji : j = i
      · subst hji
        unfold clampStep
        rw [getD_set_eq ps j _ h]
        exact clampPointAt_rent_le ps j hnn
      · unfold clampStep
        rw [getD_set_ne ps i j _ (fun hh => hji hh.symm)]
    · exact le_refl _

/-- C6 (confirmed): the clamping pass never raises any point's rent (given
nonnegative rents, as produced by the pipeline); and the per-point clamping
body, evaluated on the state it actually sees, skips points with
`count ≥ CLAMP_MAX_N`, leaves points with zero neighbours unchanged, and
otherwise replaces the rent by the neighbour median exactly when the rent
exceeds `median * CLAMP_THRESHOLD`. -/
theorem c6_clamp_behaviour (ps : List HeatPoint) (i j : ℕ)
    (hnn : ∀ q ∈ ps, 0 ≤ q.rent) :
    ((clampPass ps).getD j default).rent ≤ (ps.getD j default).rent ∧
    (CLAMP_MAX_N ≤ (ps.getD i default).count → clampPointAt ps i = ps.getD i default) ∧
    (clampNbrRents ps i = [] → clampPointAt ps i = ps.getD i default) ∧
    ((ps.getD i default).count < CLAMP_MAX_N → clampNbrRents ps i ≠ [] →
      clampPointAt ps i =
        (if (upperMedianZ (clampNbrRents ps i) : ℚ) * CLAMP_THRESHOLD <
            ((ps.getD i default).rent : ℚ) then
          { ps.getD i default with rent := upperMedianZ (clampNbrRents ps i) }
        else ps.getD i default)) := by
  refine ⟨clampFrom_rent_le ps.length ps 0 hnn j, ?_, ?_, ?_⟩
  · intro h
    simp only [clampPointAt]
    rw [if_pos h]
  · intro h
    simp only [clampPointAt]
    split_ifs with h1 h2 h3 <;>
      first
        | rfl
        | (rw [h] at h2; exact absurd rfl h2)
  · intro h1 h2
    simp only [clampPointAt]
    rw [if_neg (Nat.not_le.mpr h1), if_neg (fun hh => h2 (List.length_eq_zero.mp hh))]

/-- Points for the C6 witness: a clampable outlier and its lone neighbour. -/
def cpA : HeatPoint := ⟨0, 0, 9000, 2⟩

/-- The lone neighbour of `cpA`. -/
def cpB : HeatPoint := ⟨0.01, 0, 1000, 2⟩

theorem cnb_cp : clampNbrRents [cpA, cpB] 0 = [1000] := by
  norm_num [clampNbrRents, distSq, CLAMP_RADIUS, cpA, cpB, List.range_succ]

theorem c6_witness :
    ((clampPass [cpA, cpB]).getD 0 default).rent ≤ (([cpA, cpB] : List HeatPoint).getD 0 default).rent ∧
    clampPointAt [cpA, cpB] 0 =
      (if (upperMedianZ (clampNbrRents [cpA, cpB] 0) : ℚ) * CLAMP_THRESHOLD <
          ((([cpA, cpB] : List HeatPoint).getD 0 default).rent : ℚ) then
        { ([cpA, cpB] : List HeatPoint).getD 0 default with
            rent := upperMedianZ (clampNbrRents [cpA, cpB] 0) }
      else ([cpA, cpB] : List HeatPoint).getD 0 default) :=
  have hnn : ∀ q ∈ ([cpA, cpB] : List HeatPoint), 0 ≤ q.rent := by
    intro q hq
    rcases List.mem_cons.mp hq with h | h
    · subst h; decide
    · rw [List.mem_singleton] at h; subst h; decide
  have h := c6_clamp_behaviour [cpA, cpB] 0 0 hnn
  ⟨h.1, h.2.2.2 (by decide) (by rw [cnb_cp]; simp)⟩

theorem clampFrom_getD_lt (fuel : ℕ) :
    ∀ (ps : List HeatPoint) (i j : ℕ), j < i →
      (clampFrom fuel ps i).getD j default = ps.getD j default := by
  induction fuel with
  | zero => intro ps i j _; rfl
  | succ fuel ih =>
    intro ps i j hj
    unfold clampFrom
    split_ifs with h
    · rw [ih (clampStep ps i) (i + 1) j (Nat.lt_succ_of_lt hj)]
      unfold clampStep
      exact getD_set_ne ps i j _ (fun hh => Nat.lt_irrefl i (hh ▸ hj))
    · rfl

/-- C1 (amended): only the first-processed point is guaranteed to be clamped
against the pre-pass snapshot — the in-place pass and the snapshot clamper
agree at index 0; in general the sequential in-place clamper reads earlier
points' already-clamped values, so it is not equivalent to the snapshot
clamper and processing order matters. -/
theorem c1_first_point_snapshot (ps : List HeatPoint) :
    (clampPass ps).getD 0 default = (clampSnapshot ps).getD 0 default := by
  cases hl : ps.length with
  | zero =>
    have hnil : ps = [] := List.length_eq_zero.mp hl
    subst hnil
    rfl
  | succ n =>
    have h0 : 0 < ps.length := by omega
    have h1 : (clampPass ps).getD 0 default = clampPointAt ps 0 := by
      unfold clampPass
      rw [hl]
      unfold clampFrom
      rw [if_pos h0, clampFrom_getD_lt n (clampStep ps 0) 1 0 Nat.zero_lt_one]
      unfold clampStep
      exact getD_set_eq ps 0 _ h0
    have h2 : (clampSnapshot ps).getD 0 default = clampPointAt ps 0 := by
      unfold clampSnapshot
      rw [List.getD_eq_getElem?_getD, List.getElem?_map, List.getElem?_range h0]
      rfl
    rw [h1, h2]

/-- C1 counterexample, point 0: a 9000-rent outlier that gets clamped first. -/
def cxA : HeatPoint := ⟨0, 0, 9000, 2⟩

/-- C1 counterexample, point 1: a cheap neighbour of `cxA`. -/
def cxB : HeatPoint := ⟨-0.01, 0, 1000, 2⟩

/-- C1 counterexample, point 2: a second cheap neighbour of `cxA`. -/
def cxC : HeatPoint := ⟨-0.01, 0.01, 1100, 2⟩

/-- C1 counterexample, point 3: sees only `cxA`; clamped iff `cxA` was
already lowered. -/
def cxD : HeatPoint := ⟨0.01, 0, 2000, 2⟩

/-- `cxA` after being clamped to its neighbour median. -/
def cxA2 : HeatPoint := ⟨0, 0, 1100, 2⟩

/-- `cxD` after being clamped against the already-lowered `cxA2`. -/
def cxD2 : HeatPoint := ⟨0.01, 0, 1100, 2⟩

theorem cx_step0 : clampPointAt [cxA, cxB, cxC, cxD] 0 = cxA2 := by
  norm_num [clampPointAt, clampNbrRents, distSq, CLAMP_RADIUS, CLAMP_THRESHOLD, CLAMP_MAX_N,
    cxA, cxB, cxC, cxD, cxA2, upperMedianZ, List.insertionSort, List.orderedInsert,
    List.range_succ]

theorem cx_step1 : clampPointAt [cxA2, cxB, cxC, cxD] 1 = cxB := by
  norm_num [clampPointAt, clampNbrRents, distSq, CLAMP_RADIUS, CLAMP_THRESHOLD, CLAMP_MAX_N,
    cxA2, cxB, cxC, cxD, upperMedianZ, List.insertionSort, List.orderedInsert,
    List.range_succ]

theorem cx_step2 : clampPointAt [cxA2, cxB, cxC, cxD] 2 = cxC := by
  norm_num [clampPointAt, clampNbrRents, distSq, CLAMP_RADIUS, CLAMP_THRESHOLD, CLAMP_MAX_N,
    cxA2, cxB, cxC, cxD, upperMedianZ, List.insertionSort, List.orderedInsert,
    List.range_succ]

theorem cx_step3 : clampPointAt [cxA2, cxB, cxC, cxD] 3 = cxD2 := by
  norm_num [clampPointAt, clampNbrRents, distSq, CLAMP_RADIUS, CLAMP_THRESHOLD, CLAMP_MAX_N,
    cxA2, cxB, cxC, cxD, cxD2, upperMedianZ, List.insertionSort, List.orderedInsert,
    List.range_succ]

theorem cx_snap1 : clampPointAt [cxA, cxB, cxC, cxD] 1 = cxB := by
  norm_num [clampPointAt, clampNbrRents, distSq, CLAMP_RADIUS, CLAMP_THRESHOLD, CLAMP_MAX_N,
    cxA, cxB, cxC, cxD, upperMedianZ, List.insertionSort, List.orderedInsert,
    List.range_succ]

theorem cx_snap2 : clampPointAt [cxA, cxB, cxC, cxD] 2 = cxC := by
  norm_num [clampPointAt, clampNbrRents, distSq, CLAMP_RADIUS, CLAMP_THRESHOLD, CLAMP_MAX_N,
    cxA, cxB, cxC, cxD, upperMedianZ, List.insertionSort, List.orderedInsert,
    List.range_succ]

theorem cx_snap3 : clampPointAt [cxA, cxB, cxC, cxD] 3 = cxD := by
  norm_num [clampPointAt, clampNbrRents, distSq, CLAMP_RADIUS, CLAMP_THRESHOLD, CLAMP_MAX_N,
    cxA, cxB, cxC, cxD, upperMedianZ, List.insertionSort, List.orderedInsert,
    List.range_succ]

theorem cx_pass : clampPass [cxA, cxB, cxC, cxD] = [cxA2, cxB, cxC, cxD2] := by
  show clampFrom 4 [cxA, cxB, cxC, cxD] 0 = [cxA2, cxB, cxC, cxD2]
  norm_num [clampFrom, clampStep, cx_step0, cx_step1, cx_step2, cx_step3]

theorem cx_snapshot : clampSnapshot [cxA, cxB, cxC, cxD] = [cxA2, cxB, cxC, cxD] := by
  show (List.range 4).map (clampPointAt [cxA, cxB, cxC, cxD]) = [cxA2, cxB, cxC, cxD]
  norm_num [List.range_succ, cx_step0, cx_snap1, cx_snap2, cx_snap3]

/-- C1 counterexample: on four points the in-place sequential clamper and the
pre-pass-snapshot clamper disagree (the last point is clamped only when it
sees the first point's already-lowered rent). -/
theorem c1_cex :
    clampPass [cxA, cxB, cxC, cxD] ≠ clampSnapshot [cxA, cxB, cxC, cxD] := by
  rw [cx_pass, cx_snapshot]
  intro h
  have h3 := congrArg (fun l => (List.getD l 3 default).rent) h
  simp only [List.getD_cons_succ, List.getD_cons_zero] at h3
  exact absurd h3 (by norm_num [cxD2, cxD])

theorem sortOutput_sorted (ps : List HeatPoint) : List.Sorted outLE (sortOutput ps) :=
  List.sorted_insertionSort outLE ps

/-- C7 (amended): with the run date fixed, both pipelines are pure functions
of the input records and configuration — repeated runs give identical output
— and the output is sorted by descending rent with ties broken by ascending
latitude.  The s8 cutoff, however, derives from the wall clock, so runs at
different dates can differ on identical input and configuration. -/
theorem c7_sorted_output (w : HeatPoint → HeatPoint → ℚ) (today : ℤ)
    (ls rs recs : List Listing) :
    List.Sorted outLE (baselinePipeline w recs) ∧
    List.Sorted outLE (s8Pipeline w today ls rs) :=
  ⟨sortOutput_sorted _, sortOutput_sorted _⟩

/-- A rented record (day number 100) for the C7 counterexample. -/
def rRec : Listing :=
  { lat := some 40.6, lng := some (-73.92), rent := some 1000, beds := some 1,
    ptype := none, neighborhood := some "X", rented_date := some 100 }

/-- The single heat point the C7 counterexample run emits. -/
def rhp : HeatPoint := ⟨40.599, -73.92, 1000, 2⟩

theorem rr_keep : rented_recent 200 [rRec, rRec] = [rRec, rRec] := by
  norm_num [rented_recent, rRec, CUTOFF_DAYS]

theorem rr_drop : rented_recent 300 [rRec, rRec] = [] := by
  norm_num [rented_recent, rRec, CUTOFF_DAYS]

theorem toUpper_empty : "".toUpper = "" := by
  show String.mapAux Char.toUpper 0 "" = ""
  rw [String.mapAux.eq_def]
  simp
  intro h
  exact absurd (le_refl 0) h

theorem cl_rr : cleaned [rRec, rRec] = [rRec, rRec] := by
  norm_num [cleaned, oneBR, bedsOK, keepRecord, truthy, rentVal, typeUpper, toUpper_empty,
    BAD_TYPES, rRec]
  decide

theorem gsm_rr : get_spatial_median [rRec, rRec] 40.6 (-73.92) = none := by
  norm_num [get_spatial_median, spatialCellRents, skey, SPATIAL_GRID, pyRound, latVal, lngVal,
    rRec]

theorem nonrs_rr :
    s8_non_rs (get_spatial_median [rRec, rRec]) 0.60 [rRec, rRec] = [rRec, rRec] := by
  have h : s8_is_rs (get_spatial_median [rRec, rRec]) 0.60 rRec = false := by
    simp only [s8_is_rs, show latVal rRec = 40.6 from rfl,
      show lngVal rRec = -73.92 from rfl, gsm_rr]
    rfl
  rw [s8_non_rs]
  simp [h]

theorem ck_rr : cellKeyOf rRec = evenCellKey := by
  norm_num [cellKeyOf, rRec, evenCellKey, get_grid_size, latVal, lngVal, roundTo, pyRound]

theorem gk_rr : gridKeys [rRec, rRec] = [evenCellKey] := by
  simp [gridKeys, dedupFirst, ck_rr]

theorem cls_rr : cellListings [rRec, rRec] evenCellKey = [rRec, rRec] := by
  simp [cellListings, ck_rr]

theorem mk_rr : mkS8HeatPoint evenCellKey [rRec, rRec] = rhp := by
  norm_num [mkS8HeatPoint, evenCellKey, rRec, rhp, s8CellRent, dedupFirst, nbhdKey,
    rentVal, roundTo, pyRound]

theorem hp_rr : heat_points_s8 [rRec, rRec] = [rhp] := by
  rw [heat_points_s8, gk_rr]
  simp [cls_rr, mk_rr, MIN_CELL_COUNT]

theorem sm_rr : smoothPass (fun _ _ => 1) [rhp] = [rhp] := by
  norm_num [smoothPass, smoothAt, smoothNbrs, List.range_succ, rhp, pyRound]

theorem cp_rr : clampPass [rhp] = [rhp] := by
  show clampFrom 1 [rhp] 0 = [rhp]
  norm_num [clampFrom, clampStep, clampPointAt, clampNbrRents, CLAMP_MAX_N, rhp,
    List.range_succ]

theorem so_rr : sortOutput [rhp] = [rhp] := rfl

/-- C7 counterexample: identical input records and configuration, two
different run dates (day 200 vs day 300): the rented record of day 100 falls
inside the first run's 120-day window and outside the second's, so the two
outputs differ. -/
theorem c7_cex :
    s8Pipeline (fun _ _ => 1) 200 [] [rRec, rRec] ≠
      s8Pipeline (fun _ _ => 1) 300 [] [rRec, rRec] := by
  have hL : s8Pipeline (fun _ _ => 1) 200 [] [rRec, rRec] = [rhp] := by
    simp only [s8Pipeline, List.nil_append, rr_keep, cl_rr, nonrs_rr, hp_rr, sm_rr, cp_rr,
      so_rr]
  have hR : s8Pipeline (fun _ _ => 1) 300 [] [rRec, rRec] = [] := by
    simp only [s8Pipeline, List.nil_append, rr_drop]
    rfl
  rw [hL, hR]
  simp
